import Mathlib

/-!
# LKS QuadGrab — verification of the capture pipeline core

A shallow embedding of the QuadGrab Blender add-on's capture core
(`util/comp_graph.py`, `util/pbr_aovs.py`, `util/scene_setup.py`,
`ops/object_ot_lks_quadgrab.py`, `ops/object_ot_lks_quadgrab_restore.py`).

Embedding conventions:

* Node graphs (compositor and material shader trees) are lists of nodes plus
  lists of links; removing a node also removes the links incident to it,
  exactly as the host API does.
* The host exposes two API generations; the code selects between them with
  `hasattr` probes.  This embedding fixes the probe results to the newer
  generation (`scene.compositing_node_group`, `file_output_items`,
  `ShaderNodeMath` available in the compositor), which is the branch the
  repository primarily targets; the version probes are resolved once, not
  duplicated.
* Floating-point scene values are embedded as rationals (`ℚ`); the claims
  under study are about exact restoration, wiring and sign/order structure,
  none of which depend on rounding.
* Python's `for x in collection: collection.remove(x)` iteration (used once,
  in `pbr_aovs.py`) advances an internal index while the collection shrinks,
  so the element after each removed one is skipped; `iterRemove` embeds that
  semantics.  All other removal loops in the sources iterate over a `list()`
  copy and are embedded as plain filters.
-/

/-- Bool test: does `s` start with `pat`?  (Embeds Python `str.startswith`;
stated over `.data` so that it evaluates in the kernel.) -/
def strStarts (s pat : String) : Bool := pat.data.isPrefixOf s.data

/-- Helper for `strContainsSub`: does `pat` occur in the character list? -/
def listContainsSub (pat : List Char) : List Char → Bool
  | [] => pat.isEmpty
  | c :: cs => pat.isPrefixOf (c :: cs) || listContainsSub pat cs

/-- Bool test: does `s` contain `pat` as a substring?  (Embeds Python
`sub in s` / `str.count(sub) != 0`.) -/
def strContainsSub (s pat : String) : Bool := listContainsSub pat.data s.data

theorem strAppendCancel (s a b : String) : (s ++ a = s ++ b) ↔ a = b := by
  constructor
  · intro h
    have h2 : (s ++ a).data = (s ++ b).data := by rw [h]
    rw [String.data_append, String.data_append] at h2
    exact String.ext (List.append_cancel_left h2)
  · intro h; rw [h]

@[simp] theorem strAppendBeq (s a b : String) : (s ++ a == s ++ b) = (a == b) := by
  rcases Decidable.em (a = b) with h | h
  · simp [h]
  · have h2 : ¬ (s ++ a = s ++ b) := fun hc => h ((strAppendCancel s a b).mp hc)
    simp [h, h2]

/-- The reserved name tag every QuadGrab-created node carries
(embeds `_QG_NODE_PREFIX = "QG_"` from `util/quadgrab_helpers.py`). -/
def qgTag : String := "QG_"

/-- The user-chosen capture options, read once from scene-attached properties
at capture start (`properties.py`).  Only the fields the capture core reads
are embedded. -/
structure CaptureConfig where
  output_dir : String := "//quadgrab/"
  render_size : Nat := 128
  use_depth : Bool := true
  use_depth_exr : Bool := true
  use_depth_exr_raw : Bool := true
  use_composite : Bool := false
  use_pbr : Bool := false
  use_debug : Bool := false
  max_depth : ℚ := 10
  depth_midpoint : ℚ := 0
deriving Repr

/-- A compositor node.  Fields mirror the attributes the builder sets:
`op` is the Math node operation, `d1` is `inputs[1].default_value`
(Blender's Math-node default is 0.5 until the code overrides it),
`slots` are the File Output node's `file_output_items` names in creation
order, and the format fields mirror `node.format`. -/
structure CNode where
  name : String
  ntype : String
  label : String := ""
  location : ℚ × ℚ := (0, 0)
  op : String := ""
  d1 : ℚ := 1/2
  slots : List String := []
  directory : String := ""
  file_name : String := ""
  file_format : String := ""
  color_depth : String := ""
  compression : Nat := 0
  view_transform : String := ""
deriving Repr

/-- A compositor link: output socket `(fromNode, fromSock)` feeds input socket
`(toNode, toSock)`.  Sockets are addressed the way the code addresses them
(by name for named sockets, by `"0"` for a Math node's single output/first
input). -/
structure CLink where
  toNode : String
  toSock : String
  fromNode : String
  fromSock : String
deriving DecidableEq, Repr

/-- A compositor node tree: nodes plus links. -/
structure CompGraph where
  nodes : List CNode
  links : List CLink
deriving Repr

/-- Output sockets of the Render Layers node under the passes QuadGrab
enables (host interface; the code only probes it for membership of `"AO"`). -/
def rlayersOutputNames : List String :=
  ["Image", "Alpha", "Depth", "Normal", "DiffCol", "GlossCol", "AO",
   "QG_AOV_BaseColor", "QG_AOV_Normal", "QG_AOV_specular",
   "QG_AOV_Roughness", "QG_AOV_Metallic"]

/-- The nodes one run of `build_comp_graph` (`util/comp_graph.py` lines
10-289) creates, in creation order. -/
def buildNewNodes (cfg : CaptureConfig) (ts : String) : List CNode :=
    [ { name := qgTag ++ "Composite", ntype := "CompositorNodeComposite",
        label := "QG Composite" },
      { name := qgTag ++ "RenderLayers", ntype := "CompositorNodeRLayers",
        label := "QG Render Layers", location := (-1000, 0) },
      { name := qgTag ++ "zdepth_inverted", ntype := "ShaderNodeMath",
        label := "QG zdepth_inverted",
        location := (-700, 0), op := "MULTIPLY", d1 := -1 },
      { name := qgTag ++ "zdepth_unitized", ntype := "CompositorNodeNormalize",
        label := "QG zdepth_unitized", location := (-500, 0) },
      { name := qgTag ++ "File Out PNG Linear", ntype := "CompositorNodeOutputFile",
        label := "QG File Out PNG Linear", location := (0, -150),
        slots := [ts ++ "Composite", ts ++ "Z", ts ++ "Normal",
                  ts ++ "BaseColor", ts ++ "AO", ts ++ "Roughness",
                  ts ++ "Metallic", ts ++ "Specular", ts ++ "Alpha"],
        directory := cfg.output_dir, file_format := "PNG", color_depth := "16",
        compression := 100, view_transform := "Raw" },
      { name := qgTag ++ "File Out PNG SRGB", ntype := "CompositorNodeOutputFile",
        label := "QG File Out PNG SRGB", location := (0, -250),
        slots := [ts ++ "Composite", ts ++ "BaseColor_srgb"],
        directory := cfg.output_dir, file_format := "PNG", color_depth := "16",
        compression := 100, view_transform := "Standard" },
      { name := qgTag ++ "File Out PNG Tonemapped", ntype := "CompositorNodeOutputFile",
        label := "QG File Out PNG Tonemapped", location := (0, -400),
        slots := [ts ++ "Composite"],
        directory := cfg.output_dir, file_format := "PNG", color_depth := "16",
        compression := 100 },
      { name := qgTag ++ "EXR Height Max", ntype := "ShaderNodeMath",
        label := "QG EXR Height Max",
        location := (-500, -200), op := "MAXIMUM", d1 := -cfg.max_depth },
      { name := qgTag ++ "EXR Height Shift", ntype := "ShaderNodeMath",
        label := "QG EXR Height Shift", location := (-280, -200),
        op := "ADD", d1 := cfg.depth_midpoint * cfg.max_depth },
      { name := qgTag ++ "File Out EXR", ntype := "CompositorNodeOutputFile",
        label := "QG File Out EXR", location := (0, -600),
        slots := [ts ++ "Depth_Raw", ts ++ "Depth_Unitized"],
        directory := cfg.output_dir, file_format := "OPEN_EXR",
        color_depth := "32", compression := 100 },
      { name := qgTag ++ "Viewer", ntype := "CompositorNodeViewer",
        label := "QG Viewer", location := (300, 200) } ]

/-- The node list after one run of `build_comp_graph`: the surviving
(non-`QG_`) nodes of the prior tree, then the created nodes. -/
def buildCompNodes (cfg : CaptureConfig) (ts : String) (t0 : Option CompGraph) :
    List CNode :=
  (t0.getD ⟨[], []⟩).nodes.filter (fun n => !(strStarts n.name qgTag)) ++
    buildNewNodes cfg ts

/-- The links one run of `build_comp_graph` creates, in creation order;
links guarded by a CaptureConfig toggle in the source are guarded by the
same toggle here. -/
def buildNewLinks (cfg : CaptureConfig) (ts : String) : List CLink :=
  let rl := qgTag ++ "RenderLayers"
  let inv := qgTag ++ "zdepth_inverted"
  let unit := qgTag ++ "zdepth_unitized"
  let pngLin := qgTag ++ "File Out PNG Linear"
  let ao_output_name := if rlayersOutputNames.contains "AO" then "AO" else "Ambient Occlusion"
  ([ ⟨qgTag ++ "Composite", "Image", rl, "Image"⟩,
       ⟨qgTag ++ "Composite", "Alpha", rl, "Alpha"⟩,
       ⟨inv, "0", rl, "Depth"⟩,
       ⟨unit, "0", inv, "0"⟩ ] ++
     (if cfg.use_depth then [⟨pngLin, ts ++ "Z", unit, "0"⟩] else []) ++
     (if cfg.use_pbr then
       [ ⟨pngLin, ts ++ "Normal", rl, "QG_AOV_Normal"⟩,
         ⟨pngLin, ts ++ "BaseColor", rl, "QG_AOV_BaseColor"⟩,
         ⟨pngLin, ts ++ "AO", rl, ao_output_name⟩,
         ⟨pngLin, ts ++ "Alpha", rl, "Alpha"⟩,
         ⟨pngLin, ts ++ "Roughness", rl, "QG_AOV_Roughness"⟩,
         ⟨pngLin, ts ++ "Metallic", rl, "QG_AOV_Metallic"⟩,
         ⟨pngLin, ts ++ "Specular", rl, "QG_AOV_specular"⟩ ]
      else []) ++
     (if cfg.use_pbr then
       [⟨qgTag ++ "File Out PNG SRGB", ts ++ "BaseColor_srgb", rl, "QG_AOV_BaseColor"⟩]
      else []) ++
     (if cfg.use_composite then
       [⟨qgTag ++ "File Out PNG Tonemapped", ts ++ "Composite", rl, "Image"⟩]
      else []) ++
     [ ⟨qgTag ++ "EXR Height Max", "0", inv, "0"⟩,
       ⟨qgTag ++ "EXR Height Shift", "0", qgTag ++ "EXR Height Max", "0"⟩ ] ++
     (if cfg.use_depth_exr_raw then
       [⟨qgTag ++ "File Out EXR", ts ++ "Depth_Raw", qgTag ++ "EXR Height Shift", "0"⟩]
      else []) ++
     (if cfg.use_depth_exr then
       [⟨qgTag ++ "File Out EXR", ts ++ "Depth_Unitized", unit, "0"⟩]
      else []) ++
     [ ⟨qgTag ++ "Viewer", "Image", rl, "Image"⟩,
       ⟨qgTag ++ "Viewer", "Alpha", rl, "Alpha"⟩ ])

/-- The link list after one run of `build_comp_graph`: the surviving links of
the prior tree (both endpoints non-`QG_`), then the created links. -/
def buildCompLinks (cfg : CaptureConfig) (ts : String) (t0 : Option CompGraph) :
    List CLink :=
  (t0.getD ⟨[], []⟩).links.filter
      (fun l => !(strStarts l.toNode qgTag) && !(strStarts l.fromNode qgTag)) ++
    buildNewLinks cfg ts

/-- Embeds `build_comp_graph` from `util/comp_graph.py` (lines 10-289), acting
on the scene compositor tree (`none` when `scene.compositing_node_group` is
`None`; the builder then creates a fresh tree).  First removes every node
whose name starts with `QG_` (iterating a `list()` copy — a plain filter) and
the links incident to those nodes, then rebuilds the full QuadGrab graph;
node and link creation are interleaved in the source, so the resulting node
and link lists are given by `buildCompNodes` and `buildCompLinks`, each in
creation order. -/
def build_comp_graph (cfg : CaptureConfig) (ts : String) (t0 : Option CompGraph) :
    CompGraph :=
  ⟨buildCompNodes cfg ts t0, buildCompLinks cfg ts t0⟩

theorem build_comp_graph_nodes (cfg : CaptureConfig) (ts : String) (t0 : Option CompGraph) :
    (build_comp_graph cfg ts t0).nodes = buildCompNodes cfg ts t0 := rfl

theorem build_comp_graph_links (cfg : CaptureConfig) (ts : String) (t0 : Option CompGraph) :
    (build_comp_graph cfg ts t0).links = buildCompLinks cfg ts t0 := rfl

/-- Semantics of a compositor Math node operation, as configured by the
builder (`MULTIPLY`, `MAXIMUM`, `ADD` are the only operations it uses). -/
def mathOpSem (op : String) (a b : ℚ) : ℚ :=
  if op = "MULTIPLY" then a * b
  else if op = "ADD" then a + b
  else if op = "MAXIMUM" then max a b
  else 0

/-- Semantics of the host `CompositorNodeNormalize` node: remap the observed
per-frame range `[lo, hi]` of its input linearly onto `[0, 1]` (spec §3
"Depth Transform" and glossary "Unitized depth"; the node itself is a host
primitive, not repository code). -/
def unitize (lo hi x : ℚ) : ℚ := (x - lo) / (hi - lo)

/-- Evaluate one output socket of the compositor graph at a pixel whose raw
Z-pass value is `rawZ`, with `lo`/`hi` the frame-observed range that the
Normalize node uses.  `fuel` bounds the traversal depth. -/
def evalSocket (g : CompGraph) (lo hi rawZ : ℚ) :
    Nat → String → String → ℚ
  | 0, _, _ => 0
  | fuel + 1, nname, out =>
    match g.nodes.find? (fun n => n.name == nname) with
    | none => 0
    | some n =>
      if n.ntype == "CompositorNodeRLayers" then
        if out == "Depth" then rawZ else 0
      else if n.ntype == "ShaderNodeMath" then
        let a := match g.links.find? (fun l => l.toNode == nname && l.toSock == "0") with
          | some l => evalSocket g lo hi rawZ fuel l.fromNode l.fromSock
          | none => 1/2
        mathOpSem n.op a n.d1
      else if n.ntype == "CompositorNodeNormalize" then
        let a := match g.links.find? (fun l => l.toNode == nname && l.toSock == "0") with
          | some l => evalSocket g lo hi rawZ fuel l.fromNode l.fromSock
          | none => 0
        unitize lo hi a
      else 0

/-- A default (socket) value in a shader node tree: scalar, vector or color. -/
inductive NVal where
  | f (q : ℚ)
  | v3 (a b c : ℚ)
  | c4 (r g b a : ℚ)
deriving Repr

/-- An input socket of a shader node: its display name and current default
value. -/
structure Socket where
  sname : String
  dval : NVal
deriving Repr

/-- A shader node.  `inputs` is the node's input-socket list (indexed the way
the code indexes it: by position, or by name through `inputs.get`);
`outputs` is the list of output-socket names. -/
structure SNode where
  name : String
  ntype : String
  label : String := ""
  aov_name : String := ""
  location : ℚ × ℚ := (0, 0)
  op : String := ""
  convert_from : String := ""
  convert_to : String := ""
  inputs : List Socket := []
  outputs : List String := ["0"]
deriving Repr

/-- A shader-tree link: output socket `(fromNode, fromOut)` feeds input socket
index `toIdx` of node `toNode`. -/
structure SLink where
  toNode : String
  toIdx : Nat
  fromNode : String
  fromOut : String
deriving DecidableEq, Repr

/-- A material node tree. -/
structure NodeTree where
  nodes : List SNode
  links : List SLink
deriving Repr

/-- A material datablock: `linked` embeds `mat.library is not None`,
`tree` embeds `mat.node_tree`. -/
structure Material where
  mname : String
  linked : Bool
  tree : Option NodeTree
deriving Repr

/-- Index of the first input socket of `n` named `nm`
(embeds `node.inputs.get(nm)`, which returns the socket or `None`). -/
def inputIdx (n : SNode) (nm : String) : Option Nat :=
  n.inputs.findIdx? (fun s => s.sname == nm)

/-- The links currently targeting input socket `i` of node `nname`
(embeds `socket.links`, in tree order). -/
def socketLinks (t : NodeTree) (nname : String) (i : Nat) : List SLink :=
  t.links.filter (fun l => l.toNode == nname && l.toIdx == i)

/-- Embeds `tree.links.new(toSocket, fromSocket)`: the new link replaces any
existing link into the same (single-input) socket. -/
def linkNew (t : NodeTree) (tn : String) (ti : Nat)
    (fromNode fromOut : String) : NodeTree :=
  { t with links :=
      t.links.filter (fun l => !(l.toNode == tn && l.toIdx == ti)) ++
        [⟨tn, ti, fromNode, fromOut⟩] }

/-- Embeds Python's `for x in collection: if p(x): collection.remove(x)`
(used verbatim in `pbr_aovs.py` lines 35-37, with no `list()` copy): the
iterator's index advances past the element that slides into a removed
element's position, so that element is never tested. -/
def iterRemove (p : α → Bool) : List α → List α
  | [] => []
  | a :: rest =>
    if p a then
      match rest with
      | [] => []
      | b :: rest2 => b :: iterRemove p rest2
    else a :: iterRemove p rest

/-- Set the default value of input socket `i` of node `nname`
(embeds `socket.default_value = v`). -/
def setInputDefault (t : NodeTree) (nname : String) (i : Nat) (v : NVal) : NodeTree :=
  { t with nodes := t.nodes.map (fun n =>
      if n.name == nname then
        { n with inputs := n.inputs.mapIdx (fun j s => if j = i then { s with dval := v } else s) }
      else n) }

/-- Remove nodes of a material tree selected by `p` with the source's
iterate-while-removing loop, dropping the links incident to removed nodes
(the host removes a node's links with the node). -/
def removeNodesIter (t : NodeTree) (p : SNode → Bool) : NodeTree :=
  let kept := iterRemove p t.nodes
  let names := kept.map (fun n => n.name)
  ⟨kept, t.links.filter (fun l => names.contains l.toNode && names.contains l.fromNode)⟩

/-- Embeds the shader lookup of `pbr_aovs.py` lines 25-32:
`nt.nodes["Material Output"].inputs[0].links[0].from_node`, where any failure
(no tree, no such node, no inputs, no link) raises and the material is
skipped.  Returns the node feeding the output node's first input. -/
def findShader : Option NodeTree → Option SNode
  | none => none
  | some t =>
    match t.nodes.find? (fun n => n.name == "Material Output") with
    | none => none
    | some mo =>
      if mo.inputs.isEmpty then none
      else
        match (socketLinks t "Material Output" 0).head? with
        | none => none
        | some l => t.nodes.find? (fun n => n.name == l.fromNode)

/-- Input sockets of a freshly created `ShaderNodeOutputAOV` node. -/
def aovSockets : List Socket := [⟨"Color", .c4 0 0 0 1⟩, ⟨"Value", .f 0⟩]

/-- Default value of input socket `i` of the captured shader node
(embeds `socket.default_value` reads). -/
def shaderDefault (sh : SNode) (i : Nat) : NVal :=
  match sh.inputs[i]? with
  | some s => s.dval
  | none => .f 0

/-- The world→camera normal remap sub-chain shared by both normal branches of
`pbr_aovs.py` (transform, multiply by `(0.5, 0.5, -0.5)`, add
`(0.5, 0.5, 0.5)`, then re-link the Normal AOV input to the result). -/
def addNormalChain (t : NodeTree) (srcNode srcOut : String) : NodeTree :=
  let t := { t with nodes := t.nodes ++
    [ { name := "QG_AOV_NormalTransform", ntype := "ShaderNodeVectorTransform",
        label := "QG_AOV_NormalTransform", convert_from := "WORLD",
        convert_to := "CAMERA", location := (1000, -100),
        inputs := [⟨"Vector", .v3 0 0 0⟩] } ] }
  let t := linkNew t "QG_AOV_NormalTransform" 0 srcNode srcOut
  let t := { t with nodes := t.nodes ++
    [ { name := "QG_AOV_NormalMult", ntype := "ShaderNodeVectorMath",
        label := "QG_AOV_NormalMult", location := (1200, -100),
        op := "MULTIPLY",
        inputs := [⟨"Vector", .v3 0 0 0⟩, ⟨"Vector", .v3 (1/2) (1/2) (-(1/2))⟩] } ] }
  let t := linkNew t "QG_AOV_NormalMult" 0 "QG_AOV_NormalTransform" "0"
  let t := { t with nodes := t.nodes ++
    [ { name := "QG_AOV_NormalAdd", ntype := "ShaderNodeVectorMath",
        label := "QG_AOV_NormalAdd", location := (1400, -100),
        op := "ADD",
        inputs := [⟨"Vector", .v3 0 0 0⟩, ⟨"Vector", .v3 (1/2) (1/2) (1/2)⟩] } ] }
  let t := linkNew t "QG_AOV_NormalAdd" 0 "QG_AOV_NormalMult" "0"
  linkNew t "QG_AOV_Normal" 0 "QG_AOV_NormalAdd" "0"

/-- One value-channel wiring step of `pbr_aovs.py` (the repeated
`if <input> is not None: try link else copy default` pattern used for
Base Color and for Specular/Roughness/Metallic): given the shader's input
index (when the socket exists), either re-link the AOV node's socket from
the upstream connection or copy the static default. -/
def wireChannel (t : NodeTree) (sh : SNode) (iOpt : Option Nat)
    (aovNode : String) (aovIdx : Nat) : NodeTree :=
  match iOpt with
  | none => t
  | some i =>
    match (socketLinks t sh.name i).head? with
    | some l => linkNew t aovNode aovIdx l.fromNode l.fromOut
    | none => setInputDefault t aovNode aovIdx (shaderDefault sh i)

/-- The Normal-channel wiring of `pbr_aovs.py` (lines 90-165): when the
shader's Normal input is driven, link the AOV from the connection and build
the transform chain from the same source; otherwise synthesize a
geometry-normal node and build the chain from it. -/
def wireNormalChannel (t : NodeTree) (sh : SNode) (iOpt : Option Nat) : NodeTree :=
  match iOpt with
  | none => t
  | some i =>
    match (socketLinks t sh.name i).head? with
    | some l =>
      addNormalChain (linkNew t "QG_AOV_Normal" 0 l.fromNode l.fromOut)
        l.fromNode l.fromOut
    | none =>
      addNormalChain
        { t with nodes := t.nodes ++
          [ { name := "QG_AOV_NormalGeometry", ntype := "ShaderNodeNewGeometry",
              label := "QG_AOV_NormalGeometry", location := (800, -100),
              outputs := ["Position", "Normal", "Tangent", "True Normal",
                          "Incoming", "Parametric", "Backfacing"] } ] }
        "QG_AOV_NormalGeometry" "Normal"

/-- The five AOV output nodes `pbr_aovs.py` creates (lines 39-73), in
creation order. -/
def newAovNodes : List SNode :=
  [ { name := "QG_AOV_BaseColor", ntype := "ShaderNodeOutputAOV",
      aov_name := "QG_AOV_BaseColor", label := "QG_AOV_BaseColor",
      location := (2000, 0), inputs := aovSockets, outputs := [] },
    { name := "QG_AOV_Normal", ntype := "ShaderNodeOutputAOV",
      aov_name := "QG_AOV_Normal", label := "QG_AOV_Normal",
      location := (2000, -100), inputs := aovSockets, outputs := [] },
    { name := "QG_AOV_specular", ntype := "ShaderNodeOutputAOV",
      aov_name := "QG_AOV_specular", label := "QG_AOV_specular",
      location := (2000, -200), inputs := aovSockets, outputs := [] },
    { name := "QG_AOV_Roughness", ntype := "ShaderNodeOutputAOV",
      aov_name := "QG_AOV_Roughness", label := "QG_AOV_Roughness",
      location := (2000, -300), inputs := aovSockets, outputs := [] },
    { name := "QG_AOV_Metallic", ntype := "ShaderNodeOutputAOV",
      aov_name := "QG_AOV_Metallic", label := "QG_AOV_Metallic",
      location := (2000, -400), inputs := aovSockets, outputs := [] } ]

/-- Embeds the mutation part of the `pbr_aovs.py` per-material body (lines
34-188) for a local material whose shader lookup succeeded with `sh`:
clear old `QG_AOV` nodes (iterate-while-removing), create the five AOV output
nodes, then wire each channel from the shader's input connection or copy its
static default (Base Color into the AOV Color socket 0; Specular, Roughness
and Metallic into the AOV Value socket 1; Normal through the transform
chain). -/
def injectAovs (t0 : NodeTree) (sh : SNode) : NodeTree :=
  let t := removeNodesIter t0 (fun n => strContainsSub n.name "QG_AOV")
  let t := { t with nodes := t.nodes ++ newAovNodes }
  let t := wireChannel t sh (inputIdx sh "Base Color" <|> inputIdx sh "BC")
    "QG_AOV_BaseColor" 0
  let t := wireNormalChannel t sh (inputIdx sh "Normal" <|> inputIdx sh "NM")
  let t := wireChannel t sh
    (inputIdx sh "Specular IOR Level" <|> inputIdx sh "Specular")
    "QG_AOV_specular" 1
  let t := wireChannel t sh (inputIdx sh "Roughness") "QG_AOV_Roughness" 1
  let t := wireChannel t sh (inputIdx sh "Metallic") "QG_AOV_Metallic" 1
  t

/-- Embeds `setup_pbr_aovs_mats` from `util/pbr_aovs.py`: process every
material, skipping linked ones (counted in the second component) and local
ones whose shader lookup fails; returns
`(updated, skipped_linked, materials after)`. -/
def setup_pbr_aovs_mats : List Material → Nat × Nat × List Material
  | [] => (0, 0, [])
  | m :: rest =>
    if m.linked then
      let r := setup_pbr_aovs_mats rest
      (r.1, r.2.1 + 1, m :: r.2.2)
    else
      match findShader m.tree with
      | none =>
        let r := setup_pbr_aovs_mats rest
        (r.1, r.2.1, m :: r.2.2)
      | some sh =>
        let m2 := { m with tree := some (injectAovs (m.tree.getD ⟨[], []⟩) sh) }
        let r := setup_pbr_aovs_mats rest
        (r.1 + 1, r.2.1, m2 :: r.2.2)

/-- A view-layer AOV channel entry (`vl.aovs`): name and type. -/
structure AOVChannel where
  name : String
  atype : String
deriving DecidableEq, Repr

/-- Embeds `_QG_AOV_DEFS` from `util/scene_setup.py`. -/
def qgAovDefs : List AOVChannel :=
  [⟨"QG_AOV_BaseColor", "COLOR"⟩, ⟨"QG_AOV_Normal", "COLOR"⟩,
   ⟨"QG_AOV_specular", "VALUE"⟩, ⟨"QG_AOV_Roughness", "VALUE"⟩,
   ⟨"QG_AOV_Metallic", "VALUE"⟩]

/-- The mutable scene/view-layer state the setup/restore pair touches:
render settings, the five pass flags, compositing enablement, the compositor
tree (`scene.compositing_node_group`), the view-layer AOV list and the
material datablocks, plus the scene-attached capture options. -/
structure Scene where
  render_engine : String
  film_transparent : Bool
  use_pass_normal : Bool
  use_pass_z : Bool
  use_pass_diffuse_color : Bool
  use_pass_glossy_color : Bool
  use_pass_ambient_occlusion : Bool
  use_compositing : Bool
  comp_tree : Option CompGraph
  aovs : List AOVChannel
  materials : List Material
  props : CaptureConfig
deriving Repr

/-- Embeds the snapshot dictionary built by `apply_quadgrab_setup`
(`util/scene_setup.py` lines 59-69).  An absent cache (`{}` in Python) is
`Option.none` at the use sites. -/
structure RestoreCache where
  render_engine : String
  film_transparent : Bool
  use_pass_normal : Bool
  use_pass_z : Bool
  use_pass_diffuse_color : Bool
  use_pass_glossy_color : Bool
  use_pass_ambient_occlusion : Bool
  had_compositing : Bool
  had_comp_tree : Bool
deriving DecidableEq, Repr

/-- Embeds `apply_quadgrab_setup` (`util/scene_setup.py` lines 33-96):
snapshot, force render settings and passes, add the QG view-layer AOVs when
absent, inject material AOVs when PBR is on, build the compositor graph.
Returns `(cache, skipped_linked, mutated scene)`. -/
def apply_quadgrab_setup (s : Scene) (ts : String) : RestoreCache × Nat × Scene :=
  let cache : RestoreCache :=
    { render_engine := s.render_engine
      film_transparent := s.film_transparent
      use_pass_normal := s.use_pass_normal
      use_pass_z := s.use_pass_z
      use_pass_diffuse_color := s.use_pass_diffuse_color
      use_pass_glossy_color := s.use_pass_glossy_color
      use_pass_ambient_occlusion := s.use_pass_ambient_occlusion
      had_compositing := s.use_compositing
      had_comp_tree := s.comp_tree.isSome }
  let aovs1 :=
    if s.aovs.any (fun a => strStarts a.name "QG_AOV") then s.aovs
    else s.aovs ++ qgAovDefs
  let (skipped, mats1) :=
    if s.props.use_pbr then
      let r := setup_pbr_aovs_mats s.materials
      (r.2.1, r.2.2)
    else (0, s.materials)
  let s1 : Scene :=
    { s with
      render_engine := "CYCLES"
      film_transparent := true
      use_pass_normal := true
      use_pass_z := true
      use_pass_diffuse_color := true
      use_pass_glossy_color := true
      use_pass_ambient_occlusion := true
      aovs := aovs1
      materials := mats1
      use_compositing := true
      comp_tree := some (build_comp_graph s.props ts s.comp_tree) }
  (cache, skipped, s1)

/-- Remove every QG_AOV-tagged node of a local material (restore step 4;
iterates a `list()` copy, so a plain filter). -/
def stripMaterialAovs (m : Material) : Material :=
  if m.linked then m
  else
    match m.tree with
    | none => m
    | some t =>
      let kept := t.nodes.filter (fun n => !(strStarts n.name "QG_AOV"))
      let names := kept.map (fun n => n.name)
      { m with tree := some ⟨kept,
          t.links.filter (fun l => names.contains l.toNode && names.contains l.fromNode)⟩ }

/-- Embeds `restore_quadgrab` (`util/scene_setup.py` lines 99-159): restore
the snapshotted settings (when a cache is present), remove QG_-tagged
compositor nodes and restore compositing enablement, remove QG_AOV view-layer
channels, and strip QG_AOV nodes from every local material. -/
def restore_quadgrab (s : Scene) (cache : Option RestoreCache) : Scene :=
  let s1 : Scene := match cache with
    | none => s
    | some c =>
      { s with
        render_engine := c.render_engine
        film_transparent := c.film_transparent
        use_pass_normal := c.use_pass_normal
        use_pass_z := c.use_pass_z
        use_pass_diffuse_color := c.use_pass_diffuse_color
        use_pass_glossy_color := c.use_pass_glossy_color
        use_pass_ambient_occlusion := c.use_pass_ambient_occlusion }
  let s2 : Scene := match s1.comp_tree with
    | none => s1
    | some g =>
      let kept := g.nodes.filter (fun n => !(strStarts n.name qgTag))
      let g1 : CompGraph := ⟨kept,
        g.links.filter (fun l => !(strStarts l.toNode qgTag) && !(strStarts l.fromNode qgTag))⟩
      match cache with
      | none => { s1 with comp_tree := some g1 }
      | some c =>
        { s1 with
          use_compositing := c.had_compositing
          comp_tree := if c.had_comp_tree then some g1 else none }
  let s3 : Scene := { s2 with aovs := s2.aovs.filter (fun a => !(strStarts a.name "QG_AOV")) }
  { s3 with materials := s3.materials.map stripMaterialAovs }

/-- How one invocation of the capture operator's `execute` terminates:
normally (`{'FINISHED'}`), with a reported error (`self.report({'ERROR'},…)`
followed by `return {'CANCELLED'}`, as the early plane-resolution paths do),
or with an uncaught exception propagating out of `execute` to the host. -/
inductive ExecOutcome where
  | finished
  | errorReturned
  | raised
deriving DecidableEq, Repr

/-- The orchestrator-level scene state around `OBJECT_OT_lks_quad_grab.execute`
(`ops/object_ot_lks_quadgrab.py`): the settings state of `Scene` plus the
attributes the operator itself mutates.  `refHide` is the reference plane's
`hide_render` flag; `camObjExists` tracks the temporary camera datablock. -/
structure OrchScene where
  scn : Scene
  frame_current : Int
  resolution_x : Nat
  resolution_y : Nat
  resolution_percentage : Nat
  sceneCamera : Option String
  refHide : Bool
  camObjExists : Bool
deriving Repr

/-- Embeds `OBJECT_OT_lks_quad_grab.execute` (lines 127-168): temporary-camera
creation, resolution override, subject hide, then the
`try: setup; frame_set(0); render finally: restore` block.  `renderRaises`
models whether `bpy.ops.render.render()` raises.  The phases after the
`finally` block (warning report, metadata sidecar, optional preview plane,
selection restore) write files or add new artifacts and do not touch the
fields modelled here; the early plane-resolution paths (which return
`errorReturned`) are likewise outside this fragment.  When the render raises,
the exception leaves `execute` uncaught — there is no `except` clause — so
the outcome is `raised`. -/
def executeAtomic (renderRaises : Bool) (os : OrchScene) (ts : String) :
    OrchScene × ExecOutcome :=
  let os1 : OrchScene := { os with camObjExists := true }
  let prevResX := os1.resolution_x
  let prevResY := os1.resolution_y
  let prevResPct := os1.resolution_percentage
  let os2 : OrchScene :=
    { os1 with
      resolution_x := os1.scn.props.render_size
      resolution_y := os1.scn.props.render_size
      resolution_percentage := 100
      sceneCamera := some "LKS QuadGrab Cam Obj"
      refHide := true }
  -- try-block: setup, frame_set(0), render
  let r := apply_quadgrab_setup os2.scn ts
  let cache := r.1
  let os3 : OrchScene := { os2 with scn := r.2.2, frame_current := 0 }
  -- finally-block: unconditional restore
  let os4 : OrchScene := { os3 with refHide := false }
  let os5 : OrchScene := { os4 with scn := restore_quadgrab os4.scn (some cache) }
  let os6 : OrchScene :=
    { os5 with
      resolution_x := prevResX
      resolution_y := prevResY
      resolution_percentage := prevResPct }
  let os7 : OrchScene :=
    if os6.scn.props.use_debug then os6
    else { os6 with camObjExists := false, sceneCamera := none }
  if renderRaises then (os7, .raised) else (os7, .finished)

/-- The datablock collections the debug Cleanup operator iterates
(`bpy.data.objects/textures/images/materials/scenes`); materials carry their
`library is not None` flag. -/
structure BlendData where
  objects : List String
  textures : List String
  images : List String
  materials : List (String × Bool)
  scenes : List String
deriving DecidableEq, Repr

/-- Embeds the datablock-removal phase of
`OBJECT_OT_lks_quad_grab_restore.execute`
(`ops/object_ot_lks_quadgrab_restore.py` lines 36-57): remove every object,
texture and image whose name contains `"QuadGrab"`, every local material
whose name contains `"QG_"`, and every scene whose name contains
`"quadgrab"`.  (Each loop iterates a `list()` copy, so a plain filter; the
final `orphans_purge` can only remove further unreferenced datablocks and is
not modelled.) -/
def cleanupDatablocks (d : BlendData) : BlendData :=
  { objects := d.objects.filter (fun n => !(strContainsSub n "QuadGrab"))
    textures := d.textures.filter (fun n => !(strContainsSub n "QuadGrab"))
    images := d.images.filter (fun n => !(strContainsSub n "QuadGrab"))
    materials := d.materials.filter
      (fun m => m.2 || !(strContainsSub m.1 "QG_"))
    scenes := d.scenes.filter (fun n => !(strContainsSub n "quadgrab")) }

theorem find?_ite (p : α → Bool) (b : Bool) (xs ys : List α) :
    (if b then xs else ys).find? p = if b then xs.find? p else ys.find? p := by
  cases b <;> rfl

/-- The value the File Out EXR node's `Depth_Raw` slot is wired to: the
output of the `QG_EXR Height Shift` node, evaluated on the compositor graph
the builder creates on a fresh scene (`compositing_node_group = None`). -/
def exrRawDepthValue (cfg : CaptureConfig) (ts : String) (lo hi rawZ : ℚ) : ℚ :=
  evalSocket (build_comp_graph cfg ts none) lo hi rawZ 9 "QG_EXR Height Shift" "0"

/-- The output of the `QG_zdepth_inverted` Math node on the freshly built
compositor graph. -/
def invertedDepthValue (cfg : CaptureConfig) (ts : String) (lo hi rawZ : ℚ) : ℚ :=
  evalSocket (build_comp_graph cfg ts none) lo hi rawZ 9 "QG_zdepth_inverted" "0"

/-- The output of the `QG_zdepth_unitized` Normalize node on the freshly
built compositor graph. -/
def unitizedDepthValue (cfg : CaptureConfig) (ts : String) (lo hi rawZ : ℚ) : ℚ :=
  evalSocket (build_comp_graph cfg ts none) lo hi rawZ 9 "QG_zdepth_unitized" "0"

theorem exrRawDepthValue_eq (cfg : CaptureConfig) (ts : String) (lo hi rawZ : ℚ) :
    exrRawDepthValue cfg ts lo hi rawZ
      = max (rawZ * -1) (-cfg.max_depth) + cfg.depth_midpoint * cfg.max_depth := by
  simp [exrRawDepthValue, evalSocket, build_comp_graph, buildCompNodes, buildCompLinks,
    buildNewNodes, buildNewLinks, qgTag, mathOpSem, find?_ite, List.find?]

theorem invertedDepthValue_eq (cfg : CaptureConfig) (ts : String) (lo hi rawZ : ℚ) :
    invertedDepthValue cfg ts lo hi rawZ = rawZ * -1 := by
  simp [invertedDepthValue, evalSocket, build_comp_graph, buildCompNodes, buildCompLinks,
    buildNewNodes, buildNewLinks, qgTag, mathOpSem, find?_ite, List.find?]

theorem unitizedDepthValue_eq (cfg : CaptureConfig) (ts : String) (lo hi rawZ : ℚ) :
    unitizedDepthValue cfg ts lo hi rawZ = unitize lo hi (rawZ * -1) := by
  simp [unitizedDepthValue, evalSocket, build_comp_graph, buildCompNodes, buildCompLinks,
    buildNewNodes, buildNewLinks, qgTag, mathOpSem, find?_ite, List.find?]

/-- C5: the EXR raw/metric depth output equals
`max(rawZ × −1, −maxDepth) + midpoint × maxDepth` for every raw depth sample;
consequently a reference-plane surface sample (`rawZ = 0`) maps to
`midpoint × maxDepth` (so to `0` when `midpoint = 0`), and with
`midpoint = 0` every captured depth value is ≤ 0 (for the physical domain
`0 ≤ rawZ`, `0 ≤ maxDepth`). -/
theorem c5_exr_raw_metric_depth (cfg : CaptureConfig) (ts : String) (lo hi rawZ : ℚ) :
    exrRawDepthValue cfg ts lo hi rawZ
        = max (rawZ * -1) (-cfg.max_depth) + cfg.depth_midpoint * cfg.max_depth
      ∧ (0 ≤ cfg.max_depth →
          exrRawDepthValue cfg ts lo hi 0 = cfg.depth_midpoint * cfg.max_depth)
      ∧ (cfg.depth_midpoint = 0 → 0 ≤ cfg.max_depth →
          exrRawDepthValue cfg ts lo hi 0 = 0)
      ∧ (cfg.depth_midpoint = 0 → 0 ≤ cfg.max_depth → 0 ≤ rawZ →
          exrRawDepthValue cfg ts lo hi rawZ ≤ 0) := by
  refine ⟨exrRawDepthValue_eq cfg ts lo hi rawZ, ?_, ?_, ?_⟩
  · intro hmd
    rw [exrRawDepthValue_eq]
    have h1 : max ((0 : ℚ) * -1) (-cfg.max_depth) = 0 := by
      rw [max_eq_left]
      · ring
      · linarith
    rw [h1, zero_add]
  · intro hm hmd2
    rw [exrRawDepthValue_eq, hm]
    have h1 : max ((0 : ℚ) * -1) (-cfg.max_depth) = 0 := by
      rw [max_eq_left]
      · ring
      · linarith
    rw [h1]; ring
  · intro hm hmd hz
    rw [exrRawDepthValue_eq, hm]
    have h1 : rawZ * -1 ≤ 0 := by linarith
    have h2 : max (rawZ * -1) (-cfg.max_depth) ≤ 0 := max_le h1 (by linarith)
    linarith

/-- Concrete CaptureConfig used by witness theorems: `maxDepth = 10`,
`midpoint = 0`, all other fields at their registered defaults. -/
def demoCfg : CaptureConfig := { max_depth := 10, depth_midpoint := 0 }

theorem c5_exr_raw_metric_depth_witness :
    exrRawDepthValue demoCfg "" (-1) 0 0 = 0 :=
  (c5_exr_raw_metric_depth demoCfg "" (-1) 0 0).2.2.1 rfl (by norm_num [demoCfg])

/-- C9: the depth transform is order-preserving — for raw samples `a < b`
(`b` farther), the inverted value `a × −1` strictly exceeds `b × −1`, and the
unitized output (normalization of the inverted value over the frame's
observed range `[lo, hi]`, nondegenerate) preserves the ordering. -/
theorem c9_depth_monotonicity (cfg : CaptureConfig) (ts : String) (lo hi a b : ℚ)
    (hab : a < b) (hlohi : lo < hi) :
    invertedDepthValue cfg ts lo hi a > invertedDepthValue cfg ts lo hi b
      ∧ unitizedDepthValue cfg ts lo hi a > unitizedDepthValue cfg ts lo hi b := by
  constructor
  · rw [invertedDepthValue_eq, invertedDepthValue_eq]
    nlinarith
  · rw [unitizedDepthValue_eq, unitizedDepthValue_eq, unitize, unitize]
    have hpos : (0 : ℚ) < hi - lo := by linarith
    rw [gt_iff_lt, div_lt_div_iff₀ hpos hpos]
    nlinarith

theorem c9_depth_monotonicity_witness :
    invertedDepthValue demoCfg "x" (-1) 0 0 > invertedDepthValue demoCfg "x" (-1) 0 1
      ∧ unitizedDepthValue demoCfg "x" (-1) 0 0 > unitizedDepthValue demoCfg "x" (-1) 0 1 :=
  c9_depth_monotonicity demoCfg "x" (-1) 0 0 1 (by norm_num) (by norm_num)

/-- Bool test: does the graph contain a link into input slot `sock` of node
`nm`? -/
def hasLinkTo (g : CompGraph) (nm sock : String) : Bool :=
  g.links.any (fun l => l.toNode == nm && l.toSock == sock)

/-- The output-file slot names of node `nm` in graph `g` (empty when no such
node exists). -/
def slotsOf (g : CompGraph) (nm : String) : List String :=
  match g.nodes.find? (fun n => n.name == nm) with
  | some n => n.slots
  | none => []

theorem any_ite (p : α → Bool) (b : Bool) (xs ys : List α) :
    (if b then xs else ys).any p = if b then xs.any p else ys.any p := by
  cases b <;> rfl

theorem qgKeptNodesFindNone (ns : List CNode) (nm : String)
    (hq : strStarts nm qgTag = true) :
    (ns.filter (fun n => !(strStarts n.name qgTag))).find? (fun n => n.name == nm) = none := by
  apply List.find?_eq_none.mpr
  intro x hx hp
  have hxf := (List.mem_filter.mp hx).2
  have hx2 : x.name = nm := eq_of_beq hp
  rw [hx2, hq] at hxf
  exact absurd hxf (by decide)

theorem qgKeptLinksAnyFalse (ls : List CLink) (nm sock : String)
    (hq : strStarts nm qgTag = true) :
    (ls.filter (fun l => !(strStarts l.toNode qgTag) && !(strStarts l.fromNode qgTag))).any
      (fun l => l.toNode == nm && l.toSock == sock) = false := by
  rw [List.any_eq_false]
  intro x hx hp
  have hxf := (List.mem_filter.mp hx).2
  rw [Bool.and_eq_true] at hp hxf
  have hx2 : x.toNode = nm := eq_of_beq hp.1
  have hxf1 := hxf.1
  rw [hx2, hq] at hxf1
  exact absurd hxf1 (by decide)

theorem hasLinkTo_build (cfg : CaptureConfig) (ts : String) (t0 : Option CompGraph)
    (nm sock : String) (hq : strStarts nm qgTag = true) :
    hasLinkTo (build_comp_graph cfg ts t0) nm sock
      = (buildNewLinks cfg ts).any (fun l => l.toNode == nm && l.toSock == sock) := by
  show ((buildCompLinks cfg ts t0).any _) = _
  rw [buildCompLinks, List.any_append, qgKeptLinksAnyFalse _ _ _ hq, Bool.false_or]

theorem slotsOf_build (cfg : CaptureConfig) (ts : String) (t0 : Option CompGraph)
    (nm : String) (hq : strStarts nm qgTag = true) :
    slotsOf (build_comp_graph cfg ts t0) nm = slotsOf ⟨buildNewNodes cfg ts, []⟩ nm := by
  show (match (buildCompNodes cfg ts t0).find? _ with
        | some n => n.slots
        | none => []) = _
  rw [buildCompNodes, List.find?_append, qgKeptNodesFindNone _ _ hq, Option.none_or]
  rfl

/-- C8: for every CaptureConfig, the builder creates every output-file slot
unconditionally, and links a channel's slot to its source exactly when the
corresponding toggle is enabled: the depth toggle gates the PNG `Z` slot, the
PBR toggle gates `Normal`/`BaseColor`/`AO`/`Alpha`/`Roughness`/`Metallic`/
`Specular` and `BaseColor_srgb`, the composite toggle gates the tonemapped
`Composite` slot, and the two EXR toggles gate `Depth_Raw` and
`Depth_Unitized`; a disabled toggle leaves the slot unconnected while the
slot name still exists. -/
theorem c8_toggle_gated_slot_links (cfg : CaptureConfig) (ts : String)
    (t0 : Option CompGraph) :
    slotsOf (build_comp_graph cfg ts t0) "QG_File Out PNG Linear"
        = [ts ++ "Composite", ts ++ "Z", ts ++ "Normal", ts ++ "BaseColor",
           ts ++ "AO", ts ++ "Roughness", ts ++ "Metallic", ts ++ "Specular",
           ts ++ "Alpha"]
      ∧ slotsOf (build_comp_graph cfg ts t0) "QG_File Out PNG SRGB"
        = [ts ++ "Composite", ts ++ "BaseColor_srgb"]
      ∧ slotsOf (build_comp_graph cfg ts t0) "QG_File Out PNG Tonemapped"
        = [ts ++ "Composite"]
      ∧ slotsOf (build_comp_graph cfg ts t0) "QG_File Out EXR"
        = [ts ++ "Depth_Raw", ts ++ "Depth_Unitized"]
      ∧ hasLinkTo (build_comp_graph cfg ts t0) "QG_File Out PNG Linear" (ts ++ "Z")
        = cfg.use_depth
      ∧ hasLinkTo (build_comp_graph cfg ts t0) "QG_File Out PNG Linear" (ts ++ "Normal")
        = cfg.use_pbr
      ∧ hasLinkTo (build_comp_graph cfg ts t0) "QG_File Out PNG Linear" (ts ++ "BaseColor")
        = cfg.use_pbr
      ∧ hasLinkTo (build_comp_graph cfg ts t0) "QG_File Out PNG Linear" (ts ++ "AO")
        = cfg.use_pbr
      ∧ hasLinkTo (build_comp_graph cfg ts t0) "QG_File Out PNG Linear" (ts ++ "Alpha")
        = cfg.use_pbr
      ∧ hasLinkTo (build_comp_graph cfg ts t0) "QG_File Out PNG Linear" (ts ++ "Roughness")
        = cfg.use_pbr
      ∧ hasLinkTo (build_comp_graph cfg ts t0) "QG_File Out PNG Linear" (ts ++ "Metallic")
        = cfg.use_pbr
      ∧ hasLinkTo (build_comp_graph cfg ts t0) "QG_File Out PNG Linear" (ts ++ "Specular")
        = cfg.use_pbr
      ∧ hasLinkTo (build_comp_graph cfg ts t0) "QG_File Out PNG SRGB" (ts ++ "BaseColor_srgb")
        = cfg.use_pbr
      ∧ hasLinkTo (build_comp_graph cfg ts t0) "QG_File Out PNG Tonemapped" (ts ++ "Composite")
        = cfg.use_composite
      ∧ hasLinkTo (build_comp_graph cfg ts t0) "QG_File Out EXR" (ts ++ "Depth_Raw")
        = cfg.use_depth_exr_raw
      ∧ hasLinkTo (build_comp_graph cfg ts t0) "QG_File Out EXR" (ts ++ "Depth_Unitized")
        = cfg.use_depth_exr := by
  refine ⟨?_, ?_, ?_, ?_, ?_, ?_, ?_, ?_, ?_, ?_, ?_, ?_, ?_, ?_, ?_, ?_⟩ <;>
    first
      | (rw [slotsOf_build _ _ _ _ (by decide)]
         simp [slotsOf, buildNewNodes, qgTag])
      | (rw [hasLinkTo_build _ _ _ _ _ (by decide)]
         simp [buildNewLinks, qgTag, any_ite])

/-- C10: the debug Cleanup operator deletes datablocks by substring name
match, not by the reserved tag: every object, texture or image whose name
contains `"QuadGrab"` anywhere, every local material whose name contains
`"QG_"`, and every scene whose name contains `"quadgrab"` is removed —
including user-created datablocks, so an object named
`"My QuadGrab Notes"` is always deleted. -/
theorem c10_cleanup_substring_deletion (d : BlendData) :
    (∀ n ∈ d.objects, strContainsSub n "QuadGrab" = true →
       n ∉ (cleanupDatablocks d).objects)
      ∧ (∀ n ∈ d.textures, strContainsSub n "QuadGrab" = true →
           n ∉ (cleanupDatablocks d).textures)
      ∧ (∀ n ∈ d.images, strContainsSub n "QuadGrab" = true →
           n ∉ (cleanupDatablocks d).images)
      ∧ (∀ p ∈ d.materials, p.2 = false → strContainsSub p.1 "QG_" = true →
           p ∉ (cleanupDatablocks d).materials)
      ∧ (∀ n ∈ d.scenes, strContainsSub n "quadgrab" = true →
           n ∉ (cleanupDatablocks d).scenes)
      ∧ "My QuadGrab Notes" ∉ (cleanupDatablocks d).objects := by
  refine ⟨?_, ?_, ?_, ?_, ?_, ?_⟩
  · intro n _ hc hm
    have := (List.mem_filter.mp hm).2
    rw [hc] at this
    exact absurd this (by decide)
  · intro n _ hc hm
    have := (List.mem_filter.mp hm).2
    rw [hc] at this
    exact absurd this (by decide)
  · intro n _ hc hm
    have := (List.mem_filter.mp hm).2
    rw [hc] at this
    exact absurd this (by decide)
  · intro p _ hl hc hm
    have := (List.mem_filter.mp hm).2
    rw [hl, hc] at this
    exact absurd this (by decide)
  · intro n _ hc hm
    have := (List.mem_filter.mp hm).2
    rw [hc] at this
    exact absurd this (by decide)
  · intro hm
    have := (List.mem_filter.mp hm).2
    exact absurd this (by decide)

/-- Concrete datablock state used to witness C10. -/
def demoBlend : BlendData :=
  { objects := ["My QuadGrab Notes", "Cube", "QuadGrab Reference Plane"]
    textures := ["QuadGrab_DispTex", "Noise"]
    images := ["Render Result"]
    materials := [("QG_Preview_Mat", false), ("Wood", false)]
    scenes := ["Scene", "my quadgrab tests"] }

theorem c10_cleanup_substring_deletion_witness :
    "My QuadGrab Notes" ∉ (cleanupDatablocks demoBlend).objects
      ∧ "my quadgrab tests" ∉ (cleanupDatablocks demoBlend).scenes :=
  ⟨(c10_cleanup_substring_deletion demoBlend).1 "My QuadGrab Notes"
      (by decide) (by decide),
   (c10_cleanup_substring_deletion demoBlend).2.2.2.2.1 "my quadgrab tests"
      (by decide) (by decide)⟩

/-- No node of the scene's compositor tree carries the reserved `QG_` tag. -/
def compTreeClean (s : Scene) : Bool :=
  match s.comp_tree with
  | none => true
  | some g => g.nodes.all (fun n => !(strStarts n.name qgTag))

/-- No view-layer AOV channel carries the `QG_AOV` tag. -/
def aovsClean (s : Scene) : Bool :=
  s.aovs.all (fun a => !(strStarts a.name "QG_AOV"))

/-- A local material's shader tree holds no `QG_AOV`-tagged node (linked
materials are outside the restore contract). -/
def matClean (m : Material) : Bool :=
  m.linked ||
    (match m.tree with
     | none => true
     | some t => t.nodes.all (fun n => !(strStarts n.name "QG_AOV")))

/-- Every local material's shader tree holds no `QG_AOV`-tagged node. -/
def materialsClean (s : Scene) : Bool := s.materials.all matClean

theorem all_filter_self (p : α → Bool) (l : List α) : (l.filter p).all p = true := by
  rw [List.all_eq_true]
  intro x hx
  exact (List.mem_filter.mp hx).2

theorem stripMaterialAovs_clean (m : Material) : matClean (stripMaterialAovs m) = true := by
  rcases m with ⟨nm, lk, tr⟩
  cases lk
  · cases tr with
    | none => rfl
    | some t =>
      simp only [stripMaterialAovs, matClean]
      exact all_filter_self _ _
  · rfl

/-- Composition under verification for C1: apply the QuadGrab setup, then
immediately restore with the returned cache. -/
def setupThenRestore (s : Scene) (ts : String) : Scene :=
  restore_quadgrab (apply_quadgrab_setup s ts).2.2 (some (apply_quadgrab_setup s ts).1)

/-- Shared roundtrip fact: setup followed immediately by restore reproduces
every snapshotted field and leaves no tagged nodes or channels. -/
theorem setupThenRestore_spec (s : Scene) (ts : String) :
    (setupThenRestore s ts).render_engine = s.render_engine
      ∧ (setupThenRestore s ts).film_transparent = s.film_transparent
      ∧ (setupThenRestore s ts).use_pass_normal = s.use_pass_normal
      ∧ (setupThenRestore s ts).use_pass_z = s.use_pass_z
      ∧ (setupThenRestore s ts).use_pass_diffuse_color = s.use_pass_diffuse_color
      ∧ (setupThenRestore s ts).use_pass_glossy_color = s.use_pass_glossy_color
      ∧ (setupThenRestore s ts).use_pass_ambient_occlusion = s.use_pass_ambient_occlusion
      ∧ (setupThenRestore s ts).use_compositing = s.use_compositing
      ∧ (setupThenRestore s ts).comp_tree.isSome = s.comp_tree.isSome
      ∧ compTreeClean (setupThenRestore s ts) = true
      ∧ aovsClean (setupThenRestore s ts) = true
      ∧ materialsClean (setupThenRestore s ts) = true := by
  have hstrip : ∀ ms : List Material, (ms.map stripMaterialAovs).all matClean = true := by
    intro ms
    rw [List.all_eq_true]
    intro x hx
    rcases List.mem_map.mp hx with ⟨y, _, hy⟩
    rw [← hy]
    exact stripMaterialAovs_clean y
  simp only [setupThenRestore, apply_quadgrab_setup, restore_quadgrab]
  cases hct : s.comp_tree <;>
    simp [compTreeClean, aovsClean, materialsClean, hct, all_filter_self, hstrip]

/-- C1: for every initial scene state and CaptureConfig, running
`restore_quadgrab` with the cache returned by `apply_quadgrab_setup`,
immediately after that setup call, restores every snapshotted field exactly
(render engine, film transparency, the five view-layer pass flags, and the
two compositing-enablement flags), and leaves zero `QG_`-tagged compositor
nodes, zero `QG_AOV` nodes in local material trees, and zero `QG_AOV`
view-layer AOV channels. -/
theorem c1_restore_symmetry (s : Scene) (ts : String) :
    (setupThenRestore s ts).render_engine = s.render_engine
      ∧ (setupThenRestore s ts).film_transparent = s.film_transparent
      ∧ (setupThenRestore s ts).use_pass_normal = s.use_pass_normal
      ∧ (setupThenRestore s ts).use_pass_z = s.use_pass_z
      ∧ (setupThenRestore s ts).use_pass_diffuse_color = s.use_pass_diffuse_color
      ∧ (setupThenRestore s ts).use_pass_glossy_color = s.use_pass_glossy_color
      ∧ (setupThenRestore s ts).use_pass_ambient_occlusion = s.use_pass_ambient_occlusion
      ∧ (setupThenRestore s ts).use_compositing = s.use_compositing
      ∧ (setupThenRestore s ts).comp_tree.isSome = s.comp_tree.isSome
      ∧ compTreeClean (setupThenRestore s ts) = true
      ∧ aovsClean (setupThenRestore s ts) = true
      ∧ materialsClean (setupThenRestore s ts) = true :=
  setupThenRestore_spec s ts

theorem executeAtomic_scn (rr : Bool) (os : OrchScene) (ts : String) :
    ((executeAtomic rr os ts).1).scn = setupThenRestore os.scn ts := by
  simp only [executeAtomic, setupThenRestore]
  cases rr <;> cases hdbg : (restore_quadgrab (apply_quadgrab_setup os.scn ts).2.2
      (some (apply_quadgrab_setup os.scn ts).1)).props.use_debug <;>
    simp [hdbg]

theorem setupThenRestore_props (s : Scene) (ts : String) :
    (setupThenRestore s ts).props = s.props := rfl

theorem executeAtomic_orch_fields (rr : Bool) (os : OrchScene) (ts : String) :
    (executeAtomic rr os ts).1.refHide = false
      ∧ (executeAtomic rr os ts).1.resolution_x = os.resolution_x
      ∧ (executeAtomic rr os ts).1.resolution_y = os.resolution_y
      ∧ (executeAtomic rr os ts).1.resolution_percentage = os.resolution_percentage := by
  simp only [executeAtomic]
  cases rr <;> cases hdbg : (restore_quadgrab (apply_quadgrab_setup os.scn ts).2.2
      (some (apply_quadgrab_setup os.scn ts).1)).props.use_debug <;>
    simp [hdbg]

theorem executeAtomic_camera_removed (rr : Bool) (os : OrchScene) (ts : String)
    (hdbg : os.scn.props.use_debug = false) :
    (executeAtomic rr os ts).1.camObjExists = false
      ∧ (executeAtomic rr os ts).1.sceneCamera = none := by
  have hp : (restore_quadgrab (apply_quadgrab_setup os.scn ts).2.2
      (some (apply_quadgrab_setup os.scn ts).1)).props.use_debug = false := by
    have := setupThenRestore_props os.scn ts
    simp only [setupThenRestore] at this
    rw [this]
    exact hdbg
  simp only [executeAtomic]
  cases rr <;> simp [hp]

theorem executeAtomic_outcome (rr : Bool) (os : OrchScene) (ts : String) :
    (executeAtomic rr os ts).2 = if rr then ExecOutcome.raised else ExecOutcome.finished := by
  simp only [executeAtomic]
  cases rr <;> simp

/-- A plain initial scene for concrete runs: EEVEE engine, all relevant flags
off, no compositor tree, no AOVs, no materials, default capture options
(debug off). -/
def demoScene : Scene :=
  { render_engine := "BLENDER_EEVEE_NEXT"
    film_transparent := false
    use_pass_normal := false
    use_pass_z := false
    use_pass_diffuse_color := false
    use_pass_glossy_color := false
    use_pass_ambient_occlusion := false
    use_compositing := false
    comp_tree := none
    aovs := []
    materials := []
    props := demoCfg }

/-- A concrete orchestrator-level state: frame 5, HD resolution, an existing
user camera, subject visible, no temporary camera. -/
def demoOrch : OrchScene :=
  { scn := demoScene
    frame_current := 5
    resolution_x := 1920
    resolution_y := 1080
    resolution_percentage := 100
    sceneCamera := some "Camera"
    refHide := false
    camObjExists := false }

/-- C2 counterexample: when the render raises, the operator does **not**
catch the exception and does **not** report an error result — `execute` has
a bare `try/finally`, so the exception propagates out of the operator
(`ExecOutcome.raised`), refuting "caught at the orchestrator level … reports
the failure to the user as an error result". -/
theorem c2_render_exception_not_caught :
    (executeAtomic true demoOrch "").2 = ExecOutcome.raised
      ∧ (executeAtomic true demoOrch "").2 ≠ ExecOutcome.errorReturned := by
  constructor
  · rfl
  · intro h
    exact absurd ((rfl : (executeAtomic true demoOrch "").2 = ExecOutcome.raised) ▸ h)
      (by decide)

/-- C2 (amended): if the render invocation raises during the atomic
operator's execute, the exception propagates out of the operator uncaught
(no error result is returned), but the `finally` block runs restoration
first: the reference plane's hide-state is back to `false`, the snapshotted
settings are restored, no tagged compositor/shader nodes or AOV channels
remain, the resolution override is reverted, and the temporary camera is
removed when debug is off. -/
theorem c2_render_exception_rollback (os : OrchScene) (ts : String)
    (hdbg : os.scn.props.use_debug = false) :
    (executeAtomic true os ts).2 = ExecOutcome.raised
      ∧ (executeAtomic true os ts).1.refHide = false
      ∧ (executeAtomic true os ts).1.resolution_x = os.resolution_x
      ∧ (executeAtomic true os ts).1.resolution_y = os.resolution_y
      ∧ (executeAtomic true os ts).1.resolution_percentage = os.resolution_percentage
      ∧ (executeAtomic true os ts).1.scn.render_engine = os.scn.render_engine
      ∧ (executeAtomic true os ts).1.scn.film_transparent = os.scn.film_transparent
      ∧ (executeAtomic true os ts).1.scn.use_pass_normal = os.scn.use_pass_normal
      ∧ (executeAtomic true os ts).1.scn.use_pass_z = os.scn.use_pass_z
      ∧ (executeAtomic true os ts).1.scn.use_pass_diffuse_color
          = os.scn.use_pass_diffuse_color
      ∧ (executeAtomic true os ts).1.scn.use_pass_glossy_color
          = os.scn.use_pass_glossy_color
      ∧ (executeAtomic true os ts).1.scn.use_pass_ambient_occlusion
          = os.scn.use_pass_ambient_occlusion
      ∧ (executeAtomic true os ts).1.scn.use_compositing = os.scn.use_compositing
      ∧ compTreeClean (executeAtomic true os ts).1.scn = true
      ∧ aovsClean (executeAtomic true os ts).1.scn = true
      ∧ materialsClean (executeAtomic true os ts).1.scn = true
      ∧ (executeAtomic true os ts).1.camObjExists = false := by
  have hscn := executeAtomic_scn true os ts
  have hspec := setupThenRestore_spec os.scn ts
  have horch := executeAtomic_orch_fields true os ts
  have hcam := executeAtomic_camera_removed true os ts hdbg
  rw [executeAtomic_outcome, hscn]
  exact ⟨by simp, horch.1, horch.2.1, horch.2.2.1, horch.2.2.2,
    hspec.1, hspec.2.1, hspec.2.2.1, hspec.2.2.2.1, hspec.2.2.2.2.1,
    hspec.2.2.2.2.2.1, hspec.2.2.2.2.2.2.1, hspec.2.2.2.2.2.2.2.1,
    hspec.2.2.2.2.2.2.2.2.2.1, hspec.2.2.2.2.2.2.2.2.2.2.1,
    hspec.2.2.2.2.2.2.2.2.2.2.2, hcam.1⟩

theorem c2_render_exception_rollback_witness :
    (executeAtomic true demoOrch "").2 = ExecOutcome.raised
      ∧ (executeAtomic true demoOrch "").1.refHide = false
      ∧ (executeAtomic true demoOrch "").1.resolution_x = demoOrch.resolution_x
      ∧ (executeAtomic true demoOrch "").1.resolution_y = demoOrch.resolution_y
      ∧ (executeAtomic true demoOrch "").1.resolution_percentage
          = demoOrch.resolution_percentage
      ∧ (executeAtomic true demoOrch "").1.scn.render_engine
          = demoOrch.scn.render_engine
      ∧ (executeAtomic true demoOrch "").1.scn.film_transparent
          = demoOrch.scn.film_transparent
      ∧ (executeAtomic true demoOrch "").1.scn.use_pass_normal
          = demoOrch.scn.use_pass_normal
      ∧ (executeAtomic true demoOrch "").1.scn.use_pass_z
          = demoOrch.scn.use_pass_z
      ∧ (executeAtomic true demoOrch "").1.scn.use_pass_diffuse_color
          = demoOrch.scn.use_pass_diffuse_color
      ∧ (executeAtomic true demoOrch "").1.scn.use_pass_glossy_color
          = demoOrch.scn.use_pass_glossy_color
      ∧ (executeAtomic true demoOrch "").1.scn.use_pass_ambient_occlusion
          = demoOrch.scn.use_pass_ambient_occlusion
      ∧ (executeAtomic true demoOrch "").1.scn.use_compositing
          = demoOrch.scn.use_compositing
      ∧ compTreeClean (executeAtomic true demoOrch "").1.scn = true
      ∧ aovsClean (executeAtomic true demoOrch "").1.scn = true
      ∧ materialsClean (executeAtomic true demoOrch "").1.scn = true
      ∧ (executeAtomic true demoOrch "").1.camObjExists = false :=
  c2_render_exception_rollback demoOrch "" rfl

/-- C3 (code evaluated at the failing input): on a successful run with debug
off, starting at frame 5 with an active user camera, the operator leaves
`frame_current` at the forced value 0 — `scene.frame_set(0)` is never undone
— and `scene.camera` does not point back to the pre-call camera (the
temporary camera it was switched to is deleted), so the scene is not
byte-for-byte equivalent to its pre-capture state. -/
theorem c3_frame_and_camera_not_restored :
    demoOrch.frame_current = 5
      ∧ (executeAtomic false demoOrch "").2 = ExecOutcome.finished
      ∧ (executeAtomic false demoOrch "").1.frame_current = 0
      ∧ demoOrch.sceneCamera = some "Camera"
      ∧ (executeAtomic false demoOrch "").1.sceneCamera = none := by
  refine ⟨rfl, rfl, ?_, rfl, ?_⟩
  · rfl
  · exact (executeAtomic_camera_removed false demoOrch "" rfl).2

/-- A local material with a Principled BSDF driving the Material Output and
no upstream connections on its inputs (the typical plain PBR material). -/
def pbShaderNode : SNode :=
  { name := "Principled BSDF", ntype := "BSDF_PRINCIPLED",
    inputs := [⟨"Base Color", .c4 1 1 1 1⟩, ⟨"Metallic", .f 0⟩,
               ⟨"Roughness", .f (1/2)⟩, ⟨"Specular IOR Level", .f (1/2)⟩,
               ⟨"Normal", .v3 0 0 0⟩],
    outputs := ["BSDF"] }

/-- A Material Output node. -/
def matOutputNode : SNode :=
  { name := "Material Output", ntype := "OUTPUT_MATERIAL",
    inputs := [⟨"Surface", .f 0⟩], outputs := [] }

/-- A plain local Principled-BSDF material. -/
def pbrDemoMat : Material :=
  { mname := "Mat", linked := false,
    tree := some ⟨[matOutputNode, pbShaderNode],
                  [⟨"Material Output", 0, "Principled BSDF", "BSDF"⟩]⟩ }

/-- The node-name list of the first material's shader tree. -/
def firstMatNodeNames (ms : List Material) : List String :=
  match ms with
  | m :: _ =>
    match m.tree with
    | some t => t.nodes.map (fun n => n.name)
    | none => []
  | [] => []

/-- C6 (code evaluated at the failing input): the AOV injector is **not**
idempotent.  Its clearing loop (`for n in nt.nodes: … nt.nodes.remove(n)`,
`pbr_aovs.py` lines 35-37, the one removal loop in the repository without a
`list()` copy) mutates the collection while iterating, so the element after
each removed one is skipped: on a plain Principled material the second run
leaves four stale `QG_AOV` nodes and then recreates all nine, yielding 15
nodes where a single run yields 11. -/
theorem c6_injector_not_idempotent :
    firstMatNodeNames (setup_pbr_aovs_mats (setup_pbr_aovs_mats [pbrDemoMat]).2.2).2.2
        ≠ firstMatNodeNames (setup_pbr_aovs_mats [pbrDemoMat]).2.2
      ∧ firstMatNodeNames (setup_pbr_aovs_mats [pbrDemoMat]).2.2
        = ["Material Output", "Principled BSDF", "QG_AOV_BaseColor",
           "QG_AOV_Normal", "QG_AOV_specular", "QG_AOV_Roughness",
           "QG_AOV_Metallic", "QG_AOV_NormalGeometry", "QG_AOV_NormalTransform",
           "QG_AOV_NormalMult", "QG_AOV_NormalAdd"]
      ∧ firstMatNodeNames (setup_pbr_aovs_mats (setup_pbr_aovs_mats [pbrDemoMat]).2.2).2.2
        = ["Material Output", "Principled BSDF", "QG_AOV_Normal",
           "QG_AOV_Roughness", "QG_AOV_NormalGeometry", "QG_AOV_NormalMult",
           "QG_AOV_BaseColor", "QG_AOV_Normal", "QG_AOV_specular",
           "QG_AOV_Roughness", "QG_AOV_Metallic", "QG_AOV_NormalGeometry",
           "QG_AOV_NormalTransform", "QG_AOV_NormalMult", "QG_AOV_NormalAdd"] := by
  refine ⟨?_, by decide, by decide⟩
  intro h
  rw [show firstMatNodeNames (setup_pbr_aovs_mats
        (setup_pbr_aovs_mats [pbrDemoMat]).2.2).2.2
      = ["Material Output", "Principled BSDF", "QG_AOV_Normal",
         "QG_AOV_Roughness", "QG_AOV_NormalGeometry", "QG_AOV_NormalMult",
         "QG_AOV_BaseColor", "QG_AOV_Normal", "QG_AOV_specular",
         "QG_AOV_Roughness", "QG_AOV_Metallic", "QG_AOV_NormalGeometry",
         "QG_AOV_NormalTransform", "QG_AOV_NormalMult", "QG_AOV_NormalAdd"]
      from by decide,
    show firstMatNodeNames (setup_pbr_aovs_mats [pbrDemoMat]).2.2
      = ["Material Output", "Principled BSDF", "QG_AOV_BaseColor",
         "QG_AOV_Normal", "QG_AOV_specular", "QG_AOV_Roughness",
         "QG_AOV_Metallic", "QG_AOV_NormalGeometry", "QG_AOV_NormalTransform",
         "QG_AOV_NormalMult", "QG_AOV_NormalAdd"]
      from by decide] at h
  exact absurd h (by decide)

/-- Does the material's output node chain terminate in a standard
physically-based (Principled BSDF) shader?  Stated from the spec's words for
comparison with the code's behaviour; the `BSDF_PRINCIPLED` type tag is the
one `quadgrab_helpers._count_materials_missing_aovs` tests. -/
def terminatesInPbs (m : Material) : Bool :=
  match findShader m.tree with
  | some sh => sh.ntype == "BSDF_PRINCIPLED"
  | none => false

/-- A linked material whose output chain terminates in a Diffuse (non-PBR)
shader: it does not qualify for AOV injection, yet the injector counts it as
skipped-linked. -/
def linkedDiffuseMat : Material :=
  { mname := "LinkedDiffuse", linked := true,
    tree := some ⟨[matOutputNode,
                   { name := "Diffuse BSDF", ntype := "BSDF_DIFFUSE",
                     inputs := [⟨"Color", .c4 1 1 1 1⟩], outputs := ["BSDF"] }],
                  [⟨"Material Output", 0, "Diffuse BSDF", "BSDF"⟩]⟩ }

/-- C7 counterexample: the injector's skipped-linked count does **not** equal
the number of linked materials that otherwise qualify (terminate in a
physically-based shader) — a linked material ending in a Diffuse BSDF is
counted as skipped (count 1) although zero linked materials qualify
(`mat.library is not None` is tested before any shader inspection,
`pbr_aovs.py` lines 20-23). -/
theorem c7_skipped_count_counterexample :
    (setup_pbr_aovs_mats [linkedDiffuseMat]).2.1 = 1
      ∧ ([linkedDiffuseMat].filter
          (fun m => m.linked && terminatesInPbs m)).length = 0 := by
  exact ⟨by decide, by decide⟩

/-- C7 (amended): the AOV injector never mutates a linked material — linked
materials pass through the returned material list identically — and the pair
it returns satisfies: the second component equals the number of **all**
linked materials (qualifying or not), and the first component equals the
number of local materials whose Material Output first input is connected to
some node (whatever its shader type). -/
theorem c7_injector_counts_and_linked_safety (mats : List Material) :
    (setup_pbr_aovs_mats mats).2.1 = (mats.filter (fun m => m.linked)).length
      ∧ (setup_pbr_aovs_mats mats).1
        = (mats.filter (fun m => !m.linked && (findShader m.tree).isSome)).length
      ∧ (setup_pbr_aovs_mats mats).2.2.filter (fun m => m.linked)
        = mats.filter (fun m => m.linked) := by
  induction mats with
  | nil => exact ⟨rfl, rfl, rfl⟩
  | cons m rest ih =>
    rcases ih with ⟨ih1, ih2, ih3⟩
    cases hl : m.linked
    · cases hf : findShader m.tree
      · simp [setup_pbr_aovs_mats, hl, hf, ih1, ih2, ih3]
      · simp [setup_pbr_aovs_mats, hl, hf, ih1, ih2, ih3]
    · simp [setup_pbr_aovs_mats, hl, ih1, ih2, ih3]

theorem iterRemove_subset (p : α → Bool) :
    (l : List α) → ∀ x ∈ iterRemove p l, x ∈ l
  | [] => by intro x hx; exact absurd hx (List.not_mem_nil x)
  | a :: rest => by
    intro x hx
    by_cases hp : p a = true
    · rw [iterRemove.eq_def] at hx
      simp only [if_pos hp] at hx
      match rest, hx with
      | b :: rest2, hx =>
        rcases List.mem_cons.mp hx with h | h
        · exact List.mem_cons_of_mem a (h ▸ List.mem_cons_self b rest2)
        · exact List.mem_cons_of_mem a
            (List.mem_cons_of_mem b (iterRemove_subset p rest2 x h))
    · rw [iterRemove.eq_def] at hx
      simp only [if_neg hp] at hx
      rcases List.mem_cons.mp hx with h | h
      · exact h ▸ List.mem_cons_self a rest
      · exact List.mem_cons_of_mem a (iterRemove_subset p rest x h)

theorem mem_iterRemove_of_not (p : α → Bool) :
    (l : List α) → ∀ x ∈ l, p x = false → x ∈ iterRemove p l
  | [] => by intro x hx; exact absurd hx (List.not_mem_nil x)
  | a :: rest => by
    intro x hx hpx
    by_cases hp : p a = true
    · rw [iterRemove.eq_def]
      simp only [if_pos hp]
      match rest, hx with
      | [], hx =>
        rcases List.mem_cons.mp hx with h | h
        · rw [h, hp] at hpx; exact absurd hpx (by decide)
        · exact absurd h (List.not_mem_nil x)
      | b :: rest2, hx =>
        rcases List.mem_cons.mp hx with h | h
        · rw [h, hp] at hpx; exact absurd hpx (by decide)
        · rcases List.mem_cons.mp h with h2 | h2
          · exact h2 ▸ List.mem_cons_self b _
          · exact List.mem_cons_of_mem b (mem_iterRemove_of_not p rest2 x h2 hpx)
    · rw [iterRemove.eq_def]
      simp only [if_neg hp]
      rcases List.mem_cons.mp hx with h | h
      · exact h ▸ List.mem_cons_self a _
      · exact List.mem_cons_of_mem a (mem_iterRemove_of_not p rest x h hpx)

theorem linkNew_links_mem (t : NodeTree) (tn : String) (ti : Nat)
    (fn fo : String) (l : SLink) (hl : l ∈ t.links) (hne : l.toNode ≠ tn) :
    l ∈ (linkNew t tn ti fn fo).links := by
  apply List.mem_append_left
  apply List.mem_filter.mpr
  refine ⟨hl, ?_⟩
  simp only [Bool.not_eq_eq_eq_not, Bool.not_true, Bool.and_eq_false_imp]
  intro hbeq
  exact absurd (eq_of_beq hbeq) hne

theorem linkNew_links_src (t : NodeTree) (tn : String) (ti : Nat)
    (fn fo : String) (l : SLink) (hl : l ∈ (linkNew t tn ti fn fo).links) :
    l ∈ t.links ∨ l.toNode = tn := by
  rcases List.mem_append.mp hl with h | h
  · exact Or.inl (List.mem_filter.mp h).1
  · rcases List.mem_cons.mp h with h2 | h2
    · exact Or.inr (by rw [h2])
    · exact absurd h2 (List.not_mem_nil l)

theorem linkNew_nodes (t : NodeTree) (tn : String) (ti : Nat) (fn fo : String) :
    (linkNew t tn ti fn fo).nodes = t.nodes := rfl

theorem setInputDefault_links (t : NodeTree) (nm : String) (i : Nat) (v : NVal) :
    (setInputDefault t nm i v).links = t.links := rfl

theorem setInputDefault_nodes_mem (t : NodeTree) (nm : String) (i : Nat) (v : NVal)
    (n : SNode) (hn : n ∈ t.nodes) (hne : n.name ≠ nm) :
    n ∈ (setInputDefault t nm i v).nodes := by
  have : n = if (n.name == nm) = true then
      { n with inputs := n.inputs.mapIdx (fun j s => if j = i then { s with dval := v } else s) }
    else n := by
    rw [if_neg]
    simp only [beq_iff_eq]
    exact hne
  rw [setInputDefault]
  exact this ▸ List.mem_map_of_mem _ hn

theorem setInputDefault_nodes_src (t : NodeTree) (nm : String) (i : Nat) (v : NVal)
    (n : SNode) (hn : n ∈ (setInputDefault t nm i v).nodes) :
    n ∈ t.nodes ∨ n.name = nm := by
  rcases List.mem_map.mp hn with ⟨y, hy, hfy⟩
  by_cases hb : (y.name == nm) = true
  · right
    rw [← hfy]
    simp only [if_pos hb]
    exact eq_of_beq hb
  · left
    rw [← hfy]
    simp only [if_neg hb]
    exact hy

theorem ne_of_contains_ne (x y : String) (h1 : strContainsSub x "QG_AOV" = false)
    (h2 : strContainsSub y "QG_AOV" = true) : x ≠ y := by
  intro he
  rw [he, h2] at h1
  exact absurd h1 (by decide)

theorem addNormalChain_nodes_mem (t : NodeTree) (s o : String) (n : SNode)
    (hn : n ∈ t.nodes) : n ∈ (addNormalChain t s o).nodes := by
  simp only [addNormalChain, linkNew]
  exact List.mem_append_left _ (List.mem_append_left _ (List.mem_append_left _ hn))

theorem addNormalChain_nodes_src (t : NodeTree) (s o : String) (n : SNode)
    (hn : n ∈ (addNormalChain t s o).nodes) :
    n ∈ t.nodes ∨ strStarts n.name qgTag = true := by
  simp only [addNormalChain, linkNew] at hn
  rcases List.mem_append.mp hn with h | h
  · rcases List.mem_append.mp h with h2 | h2
    · rcases List.mem_append.mp h2 with h3 | h3
      · exact Or.inl h3
      · exact Or.inr (by rcases List.mem_singleton.mp h3 with rfl; decide)
    · exact Or.inr (by rcases List.mem_singleton.mp h2 with rfl; decide)
  · exact Or.inr (by rcases List.mem_singleton.mp h with rfl; decide)

theorem addNormalChain_links_mem (t : NodeTree) (s o : String) (l : SLink)
    (hto : strContainsSub l.toNode "QG_AOV" = false) (hl : l ∈ t.links) :
    l ∈ (addNormalChain t s o).links := by
  simp only [addNormalChain]
  apply linkNew_links_mem _ _ _ _ _ _ _ (ne_of_contains_ne _ _ hto (by decide))
  apply linkNew_links_mem _ _ _ _ _ _ _ (ne_of_contains_ne _ _ hto (by decide))
  apply linkNew_links_mem _ _ _ _ _ _ _ (ne_of_contains_ne _ _ hto (by decide))
  exact linkNew_links_mem _ _ _ _ _ _ hl (ne_of_contains_ne _ _ hto (by decide))

theorem addNormalChain_links_src (t : NodeTree) (s o : String) (l : SLink)
    (hl : l ∈ (addNormalChain t s o).links) :
    l ∈ t.links ∨ strContainsSub l.toNode "QG_AOV" = true := by
  simp only [addNormalChain] at hl
  rcases linkNew_links_src _ _ _ _ _ _ hl with h | h
  · rcases linkNew_links_src _ _ _ _ _ _ h with h2 | h2
    · rcases linkNew_links_src _ _ _ _ _ _ h2 with h3 | h3
      · rcases linkNew_links_src _ _ _ _ _ _ h3 with h4 | h4
        · exact Or.inl h4
        · exact Or.inr (by rw [h4]; decide)
      · exact Or.inr (by rw [h3]; decide)
    · exact Or.inr (by rw [h2]; decide)
  · exact Or.inr (by rw [h]; decide)

theorem wireChannel_links_mem (t : NodeTree) (sh : SNode) (iOpt : Option Nat)
    (nm : String) (idx : Nat) (l : SLink)
    (hnm : strContainsSub nm "QG_AOV" = true)
    (hto : strContainsSub l.toNode "QG_AOV" = false)
    (hl : l ∈ t.links) : l ∈ (wireChannel t sh iOpt nm idx).links := by
  cases iOpt with
  | none => exact hl
  | some i =>
    rw [wireChannel]
    cases h : (socketLinks t sh.name i).head? with
    | some l2 => exact linkNew_links_mem _ _ _ _ _ _ hl (ne_of_contains_ne _ _ hto hnm)
    | none => rw [setInputDefault_links]; exact hl

theorem wireChannel_links_src (t : NodeTree) (sh : SNode) (iOpt : Option Nat)
    (nm : String) (idx : Nat) (l : SLink)
    (hnm : strContainsSub nm "QG_AOV" = true)
    (hl : l ∈ (wireChannel t sh iOpt nm idx).links) :
    l ∈ t.links ∨ strContainsSub l.toNode "QG_AOV" = true := by
  cases iOpt with
  | none => exact Or.inl hl
  | some i =>
    rw [wireChannel] at hl
    cases h : (socketLinks t sh.name i).head? with
    | some l2 =>
      rw [h] at hl
      rcases linkNew_links_src _ _ _ _ _ _ hl with h2 | h2
      · exact Or.inl h2
      · exact Or.inr (h2 ▸ hnm)
    | none =>
      rw [h, setInputDefault_links] at hl
      exact Or.inl hl

theorem wireChannel_nodes_mem (t : NodeTree) (sh : SNode) (iOpt : Option Nat)
    (nm : String) (idx : Nat) (n : SNode) (hn : n ∈ t.nodes) (hne : n.name ≠ nm) :
    n ∈ (wireChannel t sh iOpt nm idx).nodes := by
  cases iOpt with
  | none => exact hn
  | some i =>
    rw [wireChannel]
    cases h : (socketLinks t sh.name i).head? with
    | some l2 => rw [linkNew_nodes]; exact hn
    | none => exact setInputDefault_nodes_mem _ _ _ _ _ hn hne

theorem wireChannel_nodes_src (t : NodeTree) (sh : SNode) (iOpt : Option Nat)
    (nm : String) (idx : Nat) (n : SNode)
    (hn : n ∈ (wireChannel t sh iOpt nm idx).nodes) :
    n ∈ t.nodes ∨ n.name = nm := by
  cases iOpt with
  | none => exact Or.inl hn
  | some i =>
    rw [wireChannel] at hn
    cases h : (socketLinks t sh.name i).head? with
    | some l2 =>
      rw [h, linkNew_nodes] at hn
      exact Or.inl hn
    | none =>
      rw [h] at hn
      exact setInputDefault_nodes_src _ _ _ _ _ hn

theorem wireNormalChannel_links_mem (t : NodeTree) (sh : SNode) (iOpt : Option Nat)
    (l : SLink) (hto : strContainsSub l.toNode "QG_AOV" = false)
    (hl : l ∈ t.links) : l ∈ (wireNormalChannel t sh iOpt).links := by
  cases iOpt with
  | none => exact hl
  | some i =>
    rw [wireNormalChannel]
    cases h : (socketLinks t sh.name i).head? with
    | some l2 =>
      exact addNormalChain_links_mem _ _ _ _ hto
        (linkNew_links_mem _ _ _ _ _ _ hl (ne_of_contains_ne _ _ hto (by decide)))
    | none => exact addNormalChain_links_mem _ _ _ _ hto hl

theorem wireNormalChannel_links_src (t : NodeTree) (sh : SNode) (iOpt : Option Nat)
    (l : SLink) (hl : l ∈ (wireNormalChannel t sh iOpt).links) :
    l ∈ t.links ∨ strContainsSub l.toNode "QG_AOV" = true := by
  cases iOpt with
  | none => exact Or.inl hl
  | some i =>
    rw [wireNormalChannel] at hl
    cases h : (socketLinks t sh.name i).head? with
    | some l2 =>
      rw [h] at hl
      rcases addNormalChain_links_src _ _ _ _ hl with h2 | h2
      · rcases linkNew_links_src _ _ _ _ _ _ h2 with h3 | h3
        · exact Or.inl h3
        · exact Or.inr (by rw [h3]; decide)
      · exact Or.inr h2
    | none =>
      rw [h] at hl
      rcases addNormalChain_links_src _ _ _ _ hl with h2 | h2
      · exact Or.inl h2
      · exact Or.inr h2

theorem wireNormalChannel_nodes_mem (t : NodeTree) (sh : SNode) (iOpt : Option Nat)
    (n : SNode) (hn : n ∈ t.nodes) : n ∈ (wireNormalChannel t sh iOpt).nodes := by
  cases iOpt with
  | none => exact hn
  | some i =>
    rw [wireNormalChannel]
    cases h : (socketLinks t sh.name i).head? with
    | some l2 => exact addNormalChain_nodes_mem _ _ _ _ (by rw [linkNew_nodes]; exact hn)
    | none => exact addNormalChain_nodes_mem _ _ _ _ (List.mem_append_left _ hn)

theorem wireNormalChannel_nodes_src (t : NodeTree) (sh : SNode) (iOpt : Option Nat)
    (n : SNode) (hn : n ∈ (wireNormalChannel t sh iOpt).nodes) :
    n ∈ t.nodes ∨ strStarts n.name qgTag = true := by
  cases iOpt with
  | none => exact Or.inl hn
  | some i =>
    rw [wireNormalChannel] at hn
    cases h : (socketLinks t sh.name i).head? with
    | some l2 =>
      rw [h] at hn
      rcases addNormalChain_nodes_src _ _ _ _ hn with h2 | h2
      · rw [linkNew_nodes] at h2
        exact Or.inl h2
      · exact Or.inr h2
    | none =>
      rw [h] at hn
      rcases addNormalChain_nodes_src _ _ _ _ hn with h2 | h2
      · rcases List.mem_append.mp h2 with h3 | h3
        · exact Or.inl h3
        · exact Or.inr (by rcases List.mem_singleton.mp h3 with rfl; decide)
      · exact Or.inr h2

theorem removeNodesIter_nodes_mem (t : NodeTree) (p : SNode → Bool) (n : SNode)
    (hn : n ∈ t.nodes) (hp : p n = false) : n ∈ (removeNodesIter t p).nodes :=
  mem_iterRemove_of_not p t.nodes n hn hp

theorem removeNodesIter_nodes_src (t : NodeTree) (p : SNode → Bool) (n : SNode)
    (hn : n ∈ (removeNodesIter t p).nodes) : n ∈ t.nodes :=
  iterRemove_subset p t.nodes n hn

theorem removeNodesIter_links_src (t : NodeTree) (p : SNode → Bool) (l : SLink)
    (hl : l ∈ (removeNodesIter t p).links) : l ∈ t.links :=
  (List.mem_filter.mp hl).1

theorem removeNodesIter_links_mem (t : NodeTree) (p : SNode → Bool) (l : SLink)
    (hl : l ∈ t.links)
    (n1 : SNode) (h1 : n1 ∈ t.nodes) (h1n : n1.name = l.toNode) (h1p : p n1 = false)
    (n2 : SNode) (h2 : n2 ∈ t.nodes) (h2n : n2.name = l.fromNode) (h2p : p n2 = false) :
    l ∈ (removeNodesIter t p).links := by
  apply List.mem_filter.mpr
  refine ⟨hl, ?_⟩
  rw [Bool.and_eq_true]
  constructor
  · apply List.elem_eq_true_of_mem
    exact h1n ▸ List.mem_map_of_mem _ (mem_iterRemove_of_not p t.nodes n1 h1 h1p)
  · apply List.elem_eq_true_of_mem
    exact h2n ▸ List.mem_map_of_mem _ (mem_iterRemove_of_not p t.nodes n2 h2 h2p)

theorem newAovNodes_tagged : ∀ n ∈ newAovNodes, strStarts n.name qgTag = true := by
  intro n hn
  simp only [newAovNodes, List.mem_cons, List.not_mem_nil, or_false] at hn
  rcases hn with h | h | h | h | h <;> (rw [h]; decide)

theorem injectAovs_nodes_src (t0 : NodeTree) (sh : SNode) (n : SNode)
    (hn : n ∈ (injectAovs t0 sh).nodes) :
    n ∈ t0.nodes ∨ strStarts n.name qgTag = true := by
  simp only [injectAovs] at hn
  rcases wireChannel_nodes_src _ _ _ _ _ _ hn with h | h
  · rcases wireChannel_nodes_src _ _ _ _ _ _ h with h2 | h2
    · rcases wireChannel_nodes_src _ _ _ _ _ _ h2 with h3 | h3
      · rcases wireNormalChannel_nodes_src _ _ _ _ h3 with h4 | h4
        · rcases wireChannel_nodes_src _ _ _ _ _ _ h4 with h5 | h5
          · rcases List.mem_append.mp h5 with h6 | h6
            · exact Or.inl (removeNodesIter_nodes_src _ _ _ h6)
            · exact Or.inr (newAovNodes_tagged n h6)
          · exact Or.inr (by rw [h5]; decide)
        · exact Or.inr h4
      · exact Or.inr (by rw [h3]; decide)
    · exact Or.inr (by rw [h2]; decide)
  · exact Or.inr (by rw [h]; decide)

theorem injectAovs_nodes_mem (t0 : NodeTree) (sh : SNode) (n : SNode)
    (hn : n ∈ t0.nodes) (hc : strContainsSub n.name "QG_AOV" = false) :
    n ∈ (injectAovs t0 sh).nodes := by
  simp only [injectAovs]
  apply wireChannel_nodes_mem _ _ _ _ _ _ _ (ne_of_contains_ne _ _ hc (by decide))
  apply wireChannel_nodes_mem _ _ _ _ _ _ _ (ne_of_contains_ne _ _ hc (by decide))
  apply wireChannel_nodes_mem _ _ _ _ _ _ _ (ne_of_contains_ne _ _ hc (by decide))
  apply wireNormalChannel_nodes_mem
  apply wireChannel_nodes_mem _ _ _ _ _ _ _ (ne_of_contains_ne _ _ hc (by decide))
  exact List.mem_append_left _ (removeNodesIter_nodes_mem _ _ _ hn hc)

theorem injectAovs_links_src (t0 : NodeTree) (sh : SNode) (l : SLink)
    (hl : l ∈ (injectAovs t0 sh).links) :
    l ∈ t0.links ∨ strContainsSub l.toNode "QG_AOV" = true := by
  simp only [injectAovs] at hl
  rcases wireChannel_links_src _ _ _ _ _ _ (by decide) hl with h | h
  · rcases wireChannel_links_src _ _ _ _ _ _ (by decide) h with h2 | h2
    · rcases wireChannel_links_src _ _ _ _ _ _ (by decide) h2 with h3 | h3
      · rcases wireNormalChannel_links_src _ _ _ _ h3 with h4 | h4
        · rcases wireChannel_links_src _ _ _ _ _ _ (by decide) h4 with h5 | h5
          · exact Or.inl (removeNodesIter_links_src _ _ _ h5)
          · exact Or.inr h5
        · exact Or.inr h4
      · exact Or.inr h3
    · exact Or.inr h2
  · exact Or.inr h

theorem injectAovs_links_mem (t0 : NodeTree) (sh : SNode) (l : SLink)
    (hl : l ∈ t0.links)
    (hto : strContainsSub l.toNode "QG_AOV" = false)
    (hfrom : strContainsSub l.fromNode "QG_AOV" = false)
    (n1 : SNode) (h1 : n1 ∈ t0.nodes) (h1n : n1.name = l.toNode)
    (n2 : SNode) (h2 : n2 ∈ t0.nodes) (h2n : n2.name = l.fromNode) :
    l ∈ (injectAovs t0 sh).links := by
  simp only [injectAovs]
  apply wireChannel_links_mem _ _ _ _ _ _ (by decide) hto
  apply wireChannel_links_mem _ _ _ _ _ _ (by decide) hto
  apply wireChannel_links_mem _ _ _ _ _ _ (by decide) hto
  apply wireNormalChannel_links_mem _ _ _ _ hto
  apply wireChannel_links_mem _ _ _ _ _ _ (by decide) hto
  show l ∈ (removeNodesIter t0 _).links
  exact removeNodesIter_links_mem _ _ _ hl n1 h1 h1n (by rw [h1n]; exact hto)
    n2 h2 h2n (by rw [h2n]; exact hfrom)

theorem mem_of_ite_nil {x : α} {b : Bool} {xs : List α}
    (h : x ∈ if b then xs else []) : x ∈ xs := by
  cases b with
  | false => simp at h
  | true => simpa using h

theorem buildNewNodes_tagged (cfg : CaptureConfig) (ts : String) :
    ∀ n ∈ buildNewNodes cfg ts, strStarts n.name qgTag = true := by
  intro n hn
  simp only [buildNewNodes, List.mem_cons, List.not_mem_nil, or_false] at hn
  rcases hn with h | h | h | h | h | h | h | h | h | h | h <;> (rw [h]; rfl)

theorem buildNewLinks_toNode_tagged (cfg : CaptureConfig) (ts : String) :
    ∀ l ∈ buildNewLinks cfg ts, strStarts l.toNode qgTag = true := by
  intro l hl
  simp only [buildNewLinks] at hl
  rcases List.mem_append.mp hl with h | h
  swap
  · rcases List.mem_cons.mp h with h2 | h2
    · rw [h2]; rfl
    · rcases List.mem_cons.mp h2 with h3 | h3
      · rw [h3]; rfl
      · exact absurd h3 (List.not_mem_nil l)
  rcases List.mem_append.mp h with h | h
  swap
  · rcases List.mem_cons.mp (mem_of_ite_nil h) with h2 | h2
    · rw [h2]; rfl
    · exact absurd h2 (List.not_mem_nil l)
  rcases List.mem_append.mp h with h | h
  swap
  · rcases List.mem_cons.mp (mem_of_ite_nil h) with h2 | h2
    · rw [h2]; rfl
    · exact absurd h2 (List.not_mem_nil l)
  rcases List.mem_append.mp h with h | h
  swap
  · rcases List.mem_cons.mp h with h2 | h2
    · rw [h2]; rfl
    · rcases List.mem_cons.mp h2 with h3 | h3
      · rw [h3]; rfl
      · exact absurd h3 (List.not_mem_nil l)
  rcases List.mem_append.mp h with h | h
  swap
  · rcases List.mem_cons.mp (mem_of_ite_nil h) with h2 | h2
    · rw [h2]; rfl
    · exact absurd h2 (List.not_mem_nil l)
  rcases List.mem_append.mp h with h | h
  swap
  · rcases List.mem_cons.mp (mem_of_ite_nil h) with h2 | h2
    · rw [h2]; rfl
    · exact absurd h2 (List.not_mem_nil l)
  rcases List.mem_append.mp h with h | h
  swap
  · rcases (mem_of_ite_nil h) with h2
    simp only [List.mem_cons, List.not_mem_nil, or_false] at h2
    rcases h2 with h3 | h3 | h3 | h3 | h3 | h3 | h3 <;> (rw [h3]; rfl)
  rcases List.mem_append.mp h with h | h
  swap
  · rcases List.mem_cons.mp (mem_of_ite_nil h) with h2 | h2
    · rw [h2]; rfl
    · exact absurd h2 (List.not_mem_nil l)
  simp only [List.mem_cons, List.not_mem_nil, or_false] at h
  rcases h with h2 | h2 | h2 | h2 <;> (rw [h2]; rfl)

theorem restore_comp_tree_cases (s : Scene) (cache : Option RestoreCache) :
    (restore_quadgrab s cache).comp_tree = none
      ∨ ∃ g0, s.comp_tree = some g0
          ∧ (restore_quadgrab s cache).comp_tree
            = some ⟨g0.nodes.filter (fun n => !(strStarts n.name qgTag)),
                    g0.links.filter (fun l =>
                      !(strStarts l.toNode qgTag) && !(strStarts l.fromNode qgTag))⟩ := by
  cases cache with
  | none =>
    cases hct : s.comp_tree with
    | none => exact Or.inl (by simp [restore_quadgrab, hct])
    | some g => exact Or.inr ⟨g, rfl, by simp [restore_quadgrab, hct]⟩
  | some c =>
    cases hct : s.comp_tree with
    | none => exact Or.inl (by simp [restore_quadgrab, hct])
    | some g =>
      cases hh : c.had_comp_tree with
      | false => exact Or.inl (by simp [restore_quadgrab, hct, hh])
      | true => exact Or.inr ⟨g, rfl, by simp [restore_quadgrab, hct, hh]⟩

theorem stripMaterialAovs_tree (m : Material) (t : NodeTree)
    (hm : m.tree = some t) (hl : m.linked = false) :
    (stripMaterialAovs m).tree
      = some ⟨t.nodes.filter (fun n => !(strStarts n.name "QG_AOV")),
              t.links.filter (fun l =>
                ((t.nodes.filter (fun n => !(strStarts n.name "QG_AOV"))).map
                    (fun n => n.name)).contains l.toNode
                  && ((t.nodes.filter (fun n => !(strStarts n.name "QG_AOV"))).map
                      (fun n => n.name)).contains l.fromNode)⟩ := by
  simp [stripMaterialAovs, hm, hl]

/-- A user node whose name merely *contains* `QG_AOV` without bearing the
reserved `QG_` prefix. -/
def mixHelperNode : SNode :=
  { name := "Mix QG_AOV Helper", ntype := "MIX", inputs := [], outputs := ["0"] }

/-- A local material owning the user node `Mix QG_AOV Helper` next to a
normal Principled setup. -/
def c4UserMat : Material :=
  { mname := "M", linked := false,
    tree := some ⟨[matOutputNode, pbShaderNode, mixHelperNode],
                  [⟨"Material Output", 0, "Principled BSDF", "BSDF"⟩]⟩ }

/-- C4 counterexample: the AOV injector deletes the user's node
`Mix QG_AOV Helper`, which does **not** bear the reserved `QG_` prefix — its
clearing test is `n.name.count("QG_AOV") != 0`, a substring match
(`pbr_aovs.py` line 36) — refuting "the only nodes either component ever
deletes … are nodes bearing that prefix; all nodes not bearing the prefix
are left unchanged". -/
theorem c4_substring_deletion_counterexample :
    strStarts "Mix QG_AOV Helper" qgTag = false
      ∧ "Mix QG_AOV Helper" ∈ firstMatNodeNames [c4UserMat]
      ∧ "Mix QG_AOV Helper" ∉ firstMatNodeNames (setup_pbr_aovs_mats [c4UserMat]).2.2 := by
  exact ⟨by decide, by decide, by decide⟩

/-- C4 (amended): every node the compositor builder or the AOV injector
creates carries the reserved `QG_` prefix.  The compositor builder and the
restore routine delete only prefix-bearing nodes (`QG_` in the compositor,
`QG_AOV` prefix in material trees), but the injector's clearing step deletes
exactly the material nodes whose name **contains** the substring `QG_AOV` —
not necessarily as a prefix.  Nodes outside the respective deletion scope are
preserved, with the wiring among them intact. -/
theorem c4_tagged_node_discipline :
    (∀ (cfg : CaptureConfig) (ts : String) (t0 : Option CompGraph),
        (∀ n ∈ (build_comp_graph cfg ts t0).nodes,
           n ∈ (t0.getD ⟨[], []⟩).nodes ∨ strStarts n.name qgTag = true)
        ∧ (∀ n ∈ (t0.getD ⟨[], []⟩).nodes, strStarts n.name qgTag = false →
             n ∈ (build_comp_graph cfg ts t0).nodes)
        ∧ (∀ l ∈ (t0.getD ⟨[], []⟩).links, strStarts l.toNode qgTag = false →
             strStarts l.fromNode qgTag = false → l ∈ (build_comp_graph cfg ts t0).links)
        ∧ (∀ l ∈ (build_comp_graph cfg ts t0).links,
             l ∈ (t0.getD ⟨[], []⟩).links ∨ strStarts l.toNode qgTag = true))
      ∧ (∀ (t : NodeTree) (sh : SNode),
          (∀ n ∈ (injectAovs t sh).nodes, n ∈ t.nodes ∨ strStarts n.name qgTag = true)
          ∧ (∀ n ∈ t.nodes, strContainsSub n.name "QG_AOV" = false →
               n ∈ (injectAovs t sh).nodes)
          ∧ (∀ l ∈ (injectAovs t sh).links,
               l ∈ t.links ∨ strContainsSub l.toNode "QG_AOV" = true)
          ∧ (∀ l ∈ t.links, strContainsSub l.toNode "QG_AOV" = false →
               strContainsSub l.fromNode "QG_AOV" = false →
               ∀ n1 ∈ t.nodes, n1.name = l.toNode →
               ∀ n2 ∈ t.nodes, n2.name = l.fromNode →
               l ∈ (injectAovs t sh).links))
      ∧ (∀ (s : Scene) (cache : Option RestoreCache),
          (restore_quadgrab s cache).comp_tree = none
            ∨ ∃ g0, s.comp_tree = some g0
                ∧ (restore_quadgrab s cache).comp_tree
                  = some ⟨g0.nodes.filter (fun n => !(strStarts n.name qgTag)),
                          g0.links.filter (fun l =>
                            !(strStarts l.toNode qgTag)
                              && !(strStarts l.fromNode qgTag))⟩)
      ∧ (∀ (m : Material) (t : NodeTree), m.tree = some t → m.linked = false →
          ∃ t', (stripMaterialAovs m).tree = some t'
            ∧ (∀ n ∈ t'.nodes, n ∈ t.nodes)
            ∧ (∀ n ∈ t.nodes, strStarts n.name "QG_AOV" = false → n ∈ t'.nodes)
            ∧ (∀ l ∈ t'.links, l ∈ t.links)
            ∧ (∀ l ∈ t.links, strStarts l.toNode "QG_AOV" = false →
                 strStarts l.fromNode "QG_AOV" = false →
                 ∀ n1 ∈ t.nodes, n1.name = l.toNode →
                 ∀ n2 ∈ t.nodes, n2.name = l.fromNode →
                 l ∈ t'.links)) := by
  refine ⟨?_, ?_, ?_, ?_⟩
  · intro cfg ts t0
    refine ⟨?_, ?_, ?_, ?_⟩
    · intro n hn
      rcases List.mem_append.mp hn with h | h
      · exact Or.inl (List.mem_of_mem_filter h)
      · exact Or.inr (buildNewNodes_tagged cfg ts n h)
    · intro n hn hp
      apply List.mem_append_left
      exact List.mem_filter.mpr ⟨hn, by rw [hp]; rfl⟩
    · intro l hl h1 h2
      apply List.mem_append_left
      exact List.mem_filter.mpr ⟨hl, by rw [h1, h2]; rfl⟩
    · intro l hl
      rcases List.mem_append.mp hl with h | h
      · exact Or.inl (List.mem_of_mem_filter h)
      · exact Or.inr (buildNewLinks_toNode_tagged cfg ts l h)
  · intro t sh
    refine ⟨?_, ?_, ?_, ?_⟩
    · exact injectAovs_nodes_src t sh
    · exact injectAovs_nodes_mem t sh
    · exact injectAovs_links_src t sh
    · intro l hl h1 h2 n1 hn1 hn1e n2 hn2 hn2e
      exact injectAovs_links_mem t sh l hl h1 h2 n1 hn1 hn1e n2 hn2 hn2e
  · intro s cache
    exact restore_comp_tree_cases s cache
  · intro m t hm hl
    refine ⟨_, stripMaterialAovs_tree m t hm hl, ?_, ?_, ?_, ?_⟩
    · intro n hn
      exact List.mem_of_mem_filter hn
    · intro n hn hp
      exact List.mem_filter.mpr ⟨hn, by rw [hp]; rfl⟩
    · intro l hlk
      exact List.mem_of_mem_filter hlk
    · intro l hlk h1 h2 n1 hn1 hn1e n2 hn2 hn2e
      apply List.mem_filter.mpr
      refine ⟨hlk, ?_⟩
      rw [Bool.and_eq_true]
      constructor
      · apply List.elem_eq_true_of_mem
        have hmem1 : n1 ∈ t.nodes.filter (fun n => !(strStarts n.name "QG_AOV")) :=
          List.mem_filter.mpr ⟨hn1, by rw [hn1e, h1]; rfl⟩
        rw [← hn1e]
        exact List.mem_map_of_mem _ hmem1
      · apply List.elem_eq_true_of_mem
        have hmem2 : n2 ∈ t.nodes.filter (fun n => !(strStarts n.name "QG_AOV")) :=
          List.mem_filter.mpr ⟨hn2, by rw [hn2e, h2]; rfl⟩
        rw [← hn2e]
        exact List.mem_map_of_mem _ hmem2

theorem c4_tagged_node_discipline_witness :
    matOutputNode ∈ (injectAovs ⟨[matOutputNode, pbShaderNode],
        [⟨"Material Output", 0, "Principled BSDF", "BSDF"⟩]⟩ pbShaderNode).nodes :=
  (c4_tagged_node_discipline.2.1 ⟨[matOutputNode, pbShaderNode],
      [⟨"Material Output", 0, "Principled BSDF", "BSDF"⟩]⟩ pbShaderNode).2.1
    matOutputNode (List.mem_cons_self _ _) (by rfl)
